import Mathlib

/-!
Verification of the warehouse drawing-analysis pipeline against its
specification.  The Python sources under src/drawing are shallowly embedded:
floating-point numbers are modelled as exact rationals (ℚ) where the code only
does field arithmetic and comparisons, and as real numbers (ℝ) where the code
calls transcendental functions (sqrt, atan2, cos, pi).  Python `None` becomes
`Option`, Python truthiness of a float is explicit (`≠ 0`), and Python `round`
(banker's rounding, round-half-to-even) is modelled by `pyRound` below.
-/

namespace Warehouse

/-- Python `round(x)`: round half to even.  For a value exactly halfway
between two integers Python rounds to the even one; otherwise to nearest.
`2 * round (x / 2)` is the even integer nearest `x` (its distance to `x` is
at most 1, and exactly 1 only at the half-way point where both formulas
agree), so at `Int.fract x = 1/2` it picks the even neighbour. -/
def pyRound (x : ℚ) : ℤ :=
  if Int.fract x = 1 / 2 then 2 * round (x / 2) else round x

/-- Python `round(x)` on a real argument (same half-to-even rule). -/
noncomputable def pyRoundR (x : ℝ) : ℤ :=
  if Int.fract x = 1 / 2 then 2 * round (x / 2) else round x

/-- Python `round(x, 3)` on a real: round to 3 decimal places. -/
noncomputable def pyRound3R (x : ℝ) : ℝ := (pyRoundR (1000 * x) : ℝ) / 1000

/-- Python `round(x, 1)` on a real: round to 1 decimal place. -/
noncomputable def pyRound1R (x : ℝ) : ℝ := (pyRoundR (10 * x) : ℝ) / 10

/-- Away from the exact half-way point the Python rounding agrees with
mathematical rounding, so strict two-sided bounds determine it. -/
theorem pyRoundR_eq (x : ℝ) (n : ℤ) (h1 : (n : ℝ) - 1 / 2 < x)
    (h2 : x < (n : ℝ) + 1 / 2) : pyRoundR x = n := by
  have hfr : Int.fract x ≠ 1 / 2 := by
    intro h
    have hd : x - (⌊x⌋ : ℝ) = 1 / 2 := by rw [Int.self_sub_floor, h]
    have hlt : ((n : ℤ) : ℝ) - 1 < ((⌊x⌋ : ℤ) : ℝ) := by linarith
    have hgt : ((⌊x⌋ : ℤ) : ℝ) < ((n : ℤ) : ℝ) := by linarith
    have h3 : (n : ℤ) - 1 < ⌊x⌋ := by exact_mod_cast hlt
    have h4 : ⌊x⌋ < n := by exact_mod_cast hgt
    omega
  unfold pyRoundR
  rw [if_neg hfr, round_eq]
  have h5 : ((n : ℤ) : ℝ) ≤ x + 1 / 2 := by linarith
  have h6 : x + 1 / 2 < ((n : ℤ) : ℝ) + 1 := by linarith
  exact Int.floor_eq_iff.mpr ⟨h5, h6⟩

/-- Rational version of `pyRoundR_eq`. -/
theorem pyRound_eq (x : ℚ) (n : ℤ) (h1 : (n : ℚ) - 1 / 2 < x)
    (h2 : x < (n : ℚ) + 1 / 2) : pyRound x = n := by
  have hfr : Int.fract x ≠ 1 / 2 := by
    intro h
    have hd : x - (⌊x⌋ : ℚ) = 1 / 2 := by rw [Int.self_sub_floor, h]
    have hlt : ((n : ℤ) : ℚ) - 1 < ((⌊x⌋ : ℤ) : ℚ) := by linarith
    have hgt : ((⌊x⌋ : ℤ) : ℚ) < ((n : ℤ) : ℚ) := by linarith
    have h3 : (n : ℤ) - 1 < ⌊x⌋ := by exact_mod_cast hlt
    have h4 : ⌊x⌋ < n := by exact_mod_cast hgt
    omega
  unfold pyRound
  rw [if_neg hfr, round_eq]
  have h5 : ((n : ℤ) : ℚ) ≤ x + 1 / 2 := by linarith
  have h6 : x + 1 / 2 < ((n : ℤ) : ℚ) + 1 := by linarith
  exact Int.floor_eq_iff.mpr ⟨h5, h6⟩

/-- Truthiness of a Python `Optional[float]`: `None` and `0.0` are falsy. -/
def optTruthy (v : Option ℚ) : Bool :=
  match v with
  | none => false
  | some q => q != 0

/-- Truthiness of a Python `Optional[int]`. -/
def optTruthyInt (v : Option ℤ) : Bool :=
  match v with
  | none => false
  | some k => k != 0

/-! ### Stable sorting (Python `list.sort` / `sorted`)

Python sorts are stable and ascending by key.  `sInsert`/`sSort` is a stable
insertion sort: any two stable sorts with the same comparison produce the
same list, so this models `sorted` faithfully. -/

def sInsert (le : α → α → Bool) (x : α) : List α → List α
  | [] => [x]
  | y :: ys => if le x y then x :: y :: ys else y :: sInsert le x ys

def sSort (le : α → α → Bool) : List α → List α
  | [] => []
  | x :: xs => sInsert le x (sSort le xs)

theorem sInsert_perm (le : α → α → Bool) (x : α) (l : List α) :
    (sInsert le x l).Perm (x :: l) := by
  induction l with
  | nil => simp [sInsert]
  | cons y ys ih =>
    by_cases h : le x y
    · simp [sInsert, h]
    · simp only [sInsert, h, if_false]
      exact ((ih.cons y).trans (List.Perm.swap x y ys))

theorem sSort_perm (le : α → α → Bool) (l : List α) :
    (sSort le l).Perm l := by
  induction l with
  | nil => simp [sSort]
  | cons x xs ih =>
    exact (sInsert_perm le x (sSort le xs)).trans (ih.cons x)

theorem sInsert_pairwise (le : α → α → Bool)
    (htot : ∀ a b, le a b = false → le b a = true)
    (htrans : ∀ a b c, le a b = true → le b c = true → le a c = true)
    (x : α) (l : List α) (hl : l.Pairwise (fun a b => le a b = true)) :
    (sInsert le x l).Pairwise (fun a b => le a b = true) := by
  induction l with
  | nil => simp [sInsert]
  | cons y ys ih =>
    obtain ⟨hy, hys⟩ := List.pairwise_cons.mp hl
    by_cases h : le x y
    · simp only [sInsert, h, if_true]
      refine List.Pairwise.cons ?_ (List.Pairwise.cons hy hys)
      intro b hb
      rcases List.mem_cons.mp hb with rfl | hb
      · exact h
      · exact htrans x y b h (hy b hb)
    · simp only [sInsert, h, if_false]
      refine List.Pairwise.cons ?_ (ih hys)
      intro b hb
      have hperm := sInsert_perm le x ys
      have hb2 : b ∈ x :: ys := hperm.mem_iff.mp hb
      rcases List.mem_cons.mp hb2 with hbx | hb3
      · rw [hbx]; exact htot x y (Bool.eq_false_iff.mpr h)
      · exact hy b hb3

theorem sSort_pairwise (le : α → α → Bool)
    (htot : ∀ a b, le a b = false → le b a = true)
    (htrans : ∀ a b c, le a b = true → le b c = true → le a c = true)
    (l : List α) :
    (sSort le l).Pairwise (fun a b => le a b = true) := by
  induction l with
  | nil => simp [sSort]
  | cons x xs ih => exact sInsert_pairwise le htot htrans x (sSort le xs) ih

/-! ## Component J, page selection (src/drawing/koyafuse.py lines 11-24, 69-82)

`detect_koyafuse_members` first returns `None` when the document has fewer
than two pages, then scans pages 1.. for the 小屋伏図 title; when a page is
found the function unconditionally builds and returns a `KoyafuseResult`.
The page-selection logic is everything claim C10 depends on, so it is
embedded on its own: a page is its extractable text plus the content strings
of its annotations. -/

/-- One PDF page as `_find_koyafuse_page` sees it: `page.get_text()` and the
`content` metadata of each of its annotation objects. -/
structure KPage where
  text : String
  annotTexts : List String

/-- Whether the character list `n` is an initial segment of `h`. -/
def startsList : List Char → List Char → Bool
  | [], _ => true
  | _ :: _, [] => false
  | a :: as, b :: bs => a = b && startsList as bs

/-- Substring test on character lists (Python `needle in hay`). -/
def hasSubList (n : List Char) : List Char → Bool
  | [] => n.isEmpty
  | c :: rest => startsList n (c :: rest) || hasSubList n rest

/-- Python `needle in hay` for strings. -/
def containsSub (needle hay : String) : Bool :=
  hasSubList needle.toList hay.toList

/-- Whether a page carries the roof-framing-plan title, in its text or in an
annotation content string (koyafuse.py lines 73-81). -/
def pageHasKoyafuse (p : KPage) : Bool :=
  containsSub "小屋伏図" p.text || containsSub "小　屋　伏　図" p.text ||
    p.annotTexts.any (fun c =>
      containsSub "小屋伏図" c || containsSub "小　屋　伏　図" c)

/-- The scan `for i in range(1, len(doc))` of `_find_koyafuse_page`:
walk the pages after the first, tracking the running index. -/
def findKoyafuseFrom : List KPage → ℕ → Option ℕ
  | [], _ => none
  | p :: rest, i => if pageHasKoyafuse p then some i else findKoyafuseFrom rest (i + 1)

/-- `_find_koyafuse_page(doc)` (koyafuse.py lines 69-82): scan pages with
index 1 and above for the 小屋伏図 title. -/
def findKoyafusePage (pages : List KPage) : Option ℕ :=
  findKoyafuseFrom (pages.drop 1) 1

/-- The page `detect_koyafuse_members` works on (koyafuse.py lines 11-24):
`None` when the document has fewer than 2 pages, otherwise the result of the
title scan.  When this is `none` the function returns `None`; when it is
`some i` the function unconditionally returns a `KoyafuseResult` built from
page `i`. -/
def koyafuseSelectedPage (pages : List KPage) : Option ℕ :=
  if pages.length < 2 then none else findKoyafusePage pages

theorem findKoyafuseFrom_ge (pages : List KPage) (i j : ℕ)
    (h : findKoyafuseFrom pages i = some j) : i ≤ j := by
  induction pages generalizing i with
  | nil => simp [findKoyafuseFrom] at h
  | cons p rest ih =>
    by_cases hp : pageHasKoyafuse p
    · simp [findKoyafuseFrom, hp] at h
      omega
    · simp [findKoyafuseFrom, hp] at h
      have := ih (i + 1) h
      omega

/-- Claim C10: a PDF with fewer than two pages never yields a koyafuse
result, because `detect_koyafuse_members` returns `None` outright for such
documents, and the 小屋伏図 scan only ever visits pages with index 1 and
above — so even a single page containing the title is never selected. -/
theorem C10_single_page_never_selected (pages : List KPage)
    (h : pages.length < 2) :
    koyafuseSelectedPage pages = none ∧
      ∀ j, findKoyafusePage pages = some j → 1 ≤ j := by
  constructor
  · simp [koyafuseSelectedPage, h]
  · intro j hj
    exact findKoyafuseFrom_ge _ 1 j hj

/-- Witness for C10: a one-page document whose only page does contain the
小屋伏図 title still selects no page. -/
theorem C10_witness :
    [KPage.mk "小屋伏図 S=1/100" []].length < 2 ∧
      koyafuseSelectedPage [KPage.mk "小屋伏図 S=1/100" []] = none := by
  refine ⟨by decide, ?_⟩
  exact (C10_single_page_never_selected [KPage.mk "小屋伏図 S=1/100" []]
    (by decide)).1

/-! ## Coordinate transforms (src/drawing/views.py lines 31-50,
src/drawing/koyafuse.py lines 85-93)

Component B (views.py) holds the mediabox→visual transform `_to_visual` and
its inverse `_to_mediabox`, both taking the page rotation and the mediabox
width `mw` and height `mh`.  Component J (koyafuse.py) has its own
`_to_visual` which only receives `mw`; its rotation-90 branch is marked
"placeholder; may need adjustment" in the source and its rotation-180 branch
uses `mw` where the visual flip of the y coordinate needs `mh`. -/

/-- views.py `_to_visual` (lines 31-39). -/
def viewsToVisual (mx my : ℚ) (rot : ℤ) (mw mh : ℚ) : ℚ × ℚ :=
  if rot = 270 then (my, mw - mx)
  else if rot = 90 then (mh - my, mx)
  else if rot = 180 then (mw - mx, mh - my)
  else (mx, my)

/-- views.py `_to_mediabox` (lines 42-50). -/
def viewsToMediabox (vx vy : ℚ) (rot : ℤ) (mw mh : ℚ) : ℚ × ℚ :=
  if rot = 270 then (mw - vy, vx)
  else if rot = 90 then (vy, mh - vx)
  else if rot = 180 then (mw - vx, mh - vy)
  else (vx, vy)

/-- koyafuse.py `_to_visual` (lines 85-93): only `mw` is available, so the
90 and 180 degree branches substitute `mw` for the page height. -/
def kfToVisual (mx my : ℚ) (rot : ℤ) (mw : ℚ) : ℚ × ℚ :=
  if rot = 270 then (my, mw - mx)
  else if rot = 90 then (mw - my, mx)
  else if rot = 180 then (mw - mx, mw - my)
  else (mx, my)

/-- Claim C7: component B's transform pair round-trips exactly for every
rotation (identity on every point, for 0/90/180/270 and in fact any
rotation value, both functions taking the same branch).  Component J's
`_to_visual`, however, maps the mediabox point (10, 20) of a 100×200-point
rotation-90 page to (80, 10), while the correct visual image is (180, 10);
mapping back through the inverse yields (10, 120) ≠ (10, 20), so J's
transform does not round-trip. -/
theorem C7_roundtrip_views_but_not_koyafuse :
    (∀ (rot : ℤ) (mx my mw mh : ℚ),
      (viewsToMediabox (viewsToVisual mx my rot mw mh).1
        (viewsToVisual mx my rot mw mh).2 rot mw mh) = (mx, my)) ∧
    (kfToVisual 10 20 90 100 = (80, 10) ∧
      viewsToVisual 10 20 90 100 200 = (180, 10) ∧
      (viewsToMediabox (kfToVisual 10 20 90 100).1
        (kfToVisual 10 20 90 100).2 90 100 200) = (10, 120)) := by
  constructor
  · intro rot mx my mw mh
    by_cases h270 : rot = 270
    · simp [viewsToVisual, viewsToMediabox, h270]
    · by_cases h90 : rot = 90
      · simp [viewsToVisual, viewsToMediabox, h270, h90]
      · by_cases h180 : rot = 180
        · subst h180
          simp only [viewsToVisual, viewsToMediabox]
          norm_num
        · simp [viewsToVisual, viewsToMediabox, h270, h90, h180]
  · refine ⟨?_, ?_, ?_⟩ <;> norm_num [kfToVisual, viewsToVisual, viewsToMediabox]

/-! ## Data model (src/drawing/models.py)

Only the fields the embedded components read are carried; coordinates are
exact rationals.  Field names follow the Python models. -/

structure Point where
  x : ℚ
  y : ℚ
deriving DecidableEq, Repr

structure BBox where
  x0 : ℚ
  y0 : ℚ
  x1 : ℚ
  y1 : ℚ
deriving DecidableEq, Repr

/-- models.py `BBox.contains`. -/
def BBox.contains (b : BBox) (p : Point) : Bool :=
  b.x0 ≤ p.x && p.x ≤ b.x1 && b.y0 ≤ p.y && p.y ≤ b.y1

structure TextSpan where
  text : String
  bbox : BBox
  center : Point
deriving DecidableEq, Repr

structure Line where
  p1 : Point
  p2 : Point
  length : ℚ
  angle : ℚ
  width : ℚ
deriving DecidableEq, Repr

inductive ViewType where
  | ROOF_PLAN
  | FLOOR_PLAN
  | ELEVATION
  | SECTION
  | UNKNOWN
deriving DecidableEq, Repr

structure View where
  view_type : ViewType
  title_text : String
  title_bbox : BBox
  region : BBox
  scale : Option String
  texts : List TextSpan
  lines : List Line
deriving DecidableEq, Repr

inductive GridAxis where
  | X
  | Y
deriving DecidableEq, Repr

structure GridLabel where
  axis : GridAxis
  label : String
  index : ℤ
  position : ℚ
  text_span : TextSpan
  line : Option Line
deriving DecidableEq, Repr

structure GridSystem where
  x_labels : List GridLabel
  y_labels : List GridLabel
  source_view : ViewType
deriving DecidableEq, Repr

inductive DimensionType where
  | SINGLE
  | PITCH
  | REPEAT
deriving DecidableEq, Repr

structure Dimension where
  value : ℚ
  raw_text : String
  dim_type : DimensionType
  repeat_count : Option ℤ
  text_span : TextSpan
  source_view : Option ViewType
deriving DecidableEq, Repr

inductive HeightType where
  | EAVE_HEIGHT
  | MAX_HEIGHT
  | GL
  | FL
  | DESIGN_GL
deriving DecidableEq, Repr

structure HeightParam where
  height_type : HeightType
  value : Option ℚ
  raw_text : String
  source_view : Option ViewType
deriving DecidableEq, Repr

inductive GateStatus where
  | PASS
  | WARN
  | FAIL
deriving DecidableEq, Repr

structure QualityCheck where
  name : String
  status : GateStatus
  message : String
  detail : Option String
deriving DecidableEq, Repr

structure QualityReport where
  overall : GateStatus
  checks : List QualityCheck
deriving DecidableEq, Repr

structure ViewGridInfo where
  view_index : ℕ
  view_type : ViewType
  view_title : String
  grid_side : Option String
  x_labels : List String
  y_labels : List String
deriving DecidableEq, Repr

structure FrameLink where
  x_label : String
  plan_x_position : Option ℚ
  in_elevation_sides : List String
deriving DecidableEq, Repr

structure AnchoredParam where
  name : String
  value : ℚ
  unit : String
  anchor_from : Option String
  anchor_to : Option String
  source_view : Option ViewType
  raw_text : String
  computed : Bool
deriving DecidableEq, Repr

structure MatchingResult where
  canonical_grid_source : ViewType
  view_grid_info : List ViewGridInfo
  frame_links : List FrameLink
  anchored_params : List AnchoredParam
  consistency_checks : List QualityCheck
  span : Option ℚ
  length : Option ℚ
  bay_pitch : Option ℚ
  bay_count : Option ℤ
  eave_height : Option ℚ
  max_height : Option ℚ
deriving DecidableEq, Repr

/-! ## Component C: grids (src/drawing/grids.py)

The one non-rational quantity in grids.py is the point-to-segment distance
(a square root) — it is only ever compared against another such distance or
against the constant 100, so the embedding carries the squared distance
throughout and compares squares; the square root is strictly monotone on
nonnegative reals, making every comparison outcome identical. -/

/-- Characters Python `str.strip()` removes (the whitespace characters that
occur in the drawings: ASCII whitespace, NBSP, and the ideographic space). -/
def isPySpace (c : Char) : Bool :=
  c = ' ' || c = '\t' || c = '\n' || c = '\r' || c = '\x0b' || c = '\x0c' ||
    c = ' ' || c = '　'

/-- Python `str.strip()`. -/
def pyStrip (s : String) : String :=
  String.mk (((s.toList.dropWhile isPySpace).reverse.dropWhile isPySpace).reverse)

/-- The character class `[XxYyＸＹｘｙ]` of the grid-label
patterns (half- and full-width axis letters). -/
def isAxisChar (c : Char) : Bool :=
  c = 'X' || c = 'x' || c = 'Y' || c = 'y' ||
    c = 'Ｘ' || c = 'Ｙ' || c = 'ｘ' || c = 'ｙ'

/-- The class `[\s　]` inside the grid-label patterns. -/
def isWsFull (c : Char) : Bool := isPySpace c

/-- Value of a decimal digit, accepting half- and full-width forms
(Python `\d` with re.UNICODE and `int()` accept both). -/
def digitVal (c : Char) : Option ℕ :=
  if 48 ≤ c.toNat && c.toNat ≤ 57 then some (c.toNat - 48)
  else if 0xff10 ≤ c.toNat && c.toNat ≤ 0xff19 then some (c.toNat - 0xff10)
  else none

/-- grids.py `_normalize_axis`: upper-case and map full-width to half-width. -/
def normalizeAxis (c : Char) : String :=
  if c = 'X' || c = 'x' || c = 'Ｘ' || c = 'ｘ' then "X"
  else if c = 'Y' || c = 'y' || c = 'Ｙ' || c = 'ｙ' then "Y"
  else String.mk [c.toUpper]

/-- The `(\d{1,2})$` tail of `GRID_NUMERIC_PATTERN`: one or two digits and
nothing else. -/
def gridNumericDigits (c : Char) : List Char → Option (Char × ℕ)
  | [d1] => (digitVal d1).map (fun v => (c, v))
  | [d1, d2] =>
    match digitVal d1, digitVal d2 with
    | some v1, some v2 => some (c, 10 * v1 + v2)
    | _, _ => none
  | _ => none

/-- Match of `GRID_NUMERIC_PATTERN`, `^(axis)[\s　]*(\d{1,2})$`, on a
stripped text: the axis character and the numeric index. -/
def matchGridNumeric (cs : List Char) : Option (Char × ℕ) :=
  match cs with
  | [] => none
  | c :: rest =>
    if isAxisChar c then gridNumericDigits c (rest.dropWhile isWsFull)
    else none

/-- Match of `GRID_SYMBOLIC_PATTERN`, `^(axis)[\s　]*(n\+?\d*|n)$` with
re.IGNORECASE: the axis character and the symbolic suffix (`group(2)`,
verbatim). -/
def matchGridSymbolic (cs : List Char) : Option (Char × String) :=
  match cs with
  | [] => none
  | c :: rest =>
    if isAxisChar c then
      match rest.dropWhile isWsFull with
      | [] => none
      | c2 :: rest3 =>
        if c2 = 'n' || c2 = 'N' then
          match rest3 with
          | [] => some (c, String.mk [c2])
          | '+' :: ds =>
            if ds.all (fun d => (digitVal d).isSome) then
              some (c, String.mk (c2 :: '+' :: ds))
            else none
          | ds =>
            if ds.all (fun d => (digitVal d).isSome) then
              some (c, String.mk (c2 :: ds))
            else none
        else none
    else none

/-- grids.py `_find_grid_labels` (lines 124-160): scan the text spans,
numeric pattern first, deduplicating by label name with first occurrence
winning (`seen`). -/
def findGridLabels : List TextSpan → List String →
    List (GridAxis × ℤ × String × TextSpan)
  | [], _ => []
  | ts :: rest, seen =>
    let clean := (pyStrip ts.text).toList
    match matchGridNumeric clean with
    | some (axisChar, idx) =>
      let axisStr := normalizeAxis axisChar
      let axis := if axisStr = "X" then GridAxis.X else GridAxis.Y
      let label := axisStr ++ toString idx
      if label ∈ seen then findGridLabels rest seen
      else (axis, (idx : ℤ), label, ts) :: findGridLabels rest (label :: seen)
    | none =>
      match matchGridSymbolic clean with
      | some (axisChar, suffix) =>
        let axisStr := normalizeAxis axisChar
        let axis := if axisStr = "X" then GridAxis.X else GridAxis.Y
        let label := axisStr ++ suffix
        if label ∈ seen then findGridLabels rest seen
        else (axis, 999, label, ts) :: findGridLabels rest (label :: seen)
      | none => findGridLabels rest seen

/-- primitives.py `dist`, squared (see the section comment). -/
def distSq (a b : Point) : ℚ :=
  (b.x - a.x) * (b.x - a.x) + (b.y - a.y) * (b.y - a.y)

/-- Python float modulo for a positive modulus (`a % m`). -/
def qMod (a m : ℚ) : ℚ := a - m * ⌊a / m⌋

/-- primitives.py `is_horizontal`. -/
def is_horizontal (l : Line) (tol : ℚ) : Bool :=
  let a := qMod l.angle 180
  a < tol || a > 180 - tol

/-- primitives.py `is_vertical`. -/
def is_vertical (l : Line) (tol : ℚ) : Bool :=
  |qMod l.angle 180 - 90| < tol

/-- primitives.py `point_to_line_distance`, squared (see section comment);
the `1e-10` degeneracy guard is on the squared length exactly as in the
source. -/
def pointToLineDistSq (p : Point) (l : Line) : ℚ :=
  let dx := l.p2.x - l.p1.x
  let dy := l.p2.y - l.p1.y
  let lenSq := dx * dx + dy * dy
  if lenSq < 1e-10 then distSq p l.p1
  else
    let t := ((p.x - l.p1.x) * dx + (p.y - l.p1.y) * dy) / lenSq
    let t := max 0 (min 1 t)
    distSq p (Point.mk (l.p1.x + t * dx) (l.p1.y + t * dy))

/-- First element with the minimal key: the head of the stable ascending
sort `candidates.sort(key=first)` in `_associate_label_to_line`. -/
def minByFirst : List (ℚ × Line) → Option (ℚ × Line)
  | [] => none
  | c :: rest =>
    match minByFirst rest with
    | none => some c
    | some best => if best.1 < c.1 then some best else some c

/-- grids.py `_associate_label_to_line` (lines 173-214): candidate lines of
length ≥ 50 with the orientation the axis requires (swapped under rotation
90/270), nearest by perpendicular distance, rejected beyond 100 pt. -/
def associateLabelToLine (axis : GridAxis) (ts : TextSpan) (lines : List Line)
    (axesSwapped : Bool) : Option Line :=
  let candidates := lines.filterMap (fun ln =>
    if ln.length < 50 then none
    else
      let ok :=
        if axesSwapped then
          match axis with
          | GridAxis.X => is_horizontal ln 10
          | GridAxis.Y => is_vertical ln 10
        else
          match axis with
          | GridAxis.X => is_vertical ln 10
          | GridAxis.Y => is_horizontal ln 10
      if ok then some (pointToLineDistSq ts.center ln, ln) else none)
  match minByFirst candidates with
  | none => none
  | some (dSq, ln) => if dSq > 100 * 100 then none else some ln

/-- grids.py `_label_position` (lines 217-246). -/
def labelPosition (axis : GridAxis) (ts : TextSpan) (line : Option Line)
    (axesSwapped : Bool) : ℚ :=
  if axesSwapped then
    match line with
    | some l =>
      match axis with
      | GridAxis.X => (l.p1.y + l.p2.y) / 2
      | GridAxis.Y => (l.p1.x + l.p2.x) / 2
    | none =>
      match axis with
      | GridAxis.X => ts.center.y
      | GridAxis.Y => ts.center.x
  else
    match line with
    | some l =>
      match axis with
      | GridAxis.X => (l.p1.x + l.p2.x) / 2
      | GridAxis.Y => (l.p1.y + l.p2.y) / 2
    | none =>
      match axis with
      | GridAxis.X => ts.center.x
      | GridAxis.Y => ts.center.y

/-- grids.py `_extract_from_view` (lines 91-121). -/
def extractFromView (view : View) (rot : ℤ) : List GridLabel × List GridLabel :=
  let labelMatches := findGridLabels view.texts []
  let swapped := rot = 90 || rot = 270
  let mk := fun (m : GridAxis × ℤ × String × TextSpan) =>
    let (axis, index, labelText, ts) := m
    let line := associateLabelToLine axis ts view.lines swapped
    GridLabel.mk axis labelText index (labelPosition axis ts line swapped) ts line
  let all := labelMatches.map mk
  (all.filter (fun g => g.axis = GridAxis.X), all.filter (fun g => g.axis = GridAxis.Y))

/-- grids.py `extract_per_view_grids` (lines 20-30): one entry per view.
The source stores only non-empty extractions in a dict and reads it back
with default `([], [])`, which is the same total function. -/
def extractPerViewGrids (views : List View) (rot : ℤ) :
    List (List GridLabel × List GridLabel) :=
  views.map (fun v => extractFromView v rot)

/-- One pass of the collection loops of `extract_grid_system`: accumulate
the labels of every view matching `target` (or of every view when `target`
is `none`), recording the first contributing view type. -/
def collectViews (target : Option ViewType) (rot : ℤ) :
    List View → List GridLabel × List GridLabel × ViewType →
      List GridLabel × List GridLabel × ViewType
  | [], st => st
  | v :: rest, st =>
    if target = none ∨ target = some v.view_type then
      let ex := extractFromView v rot
      if ex.1 ≠ [] ∨ ex.2 ≠ [] then
        collectViews target rot rest
          (st.1 ++ ex.1, st.2.1 ++ ex.2,
            if st.2.2 = ViewType.UNKNOWN then v.view_type else st.2.2)
      else collectViews target rot rest st
    else collectViews target rot rest st

/-- Deduplicate by label name keeping the first occurrence, threading the
`seen` set (grids.py lines 68-79; `seen` is shared between the X pass and
the Y pass). -/
def dedupLabels (seen : List String) :
    List GridLabel → List GridLabel × List String
  | [] => ([], seen)
  | l :: ls =>
    if l.label ∈ seen then dedupLabels seen ls
    else
      let (rest, seenOut) := dedupLabels (l.label :: seen) ls
      (l :: rest, seenOut)

/-- Comparison used for `dedup_x.sort(key=lambda l: l.position)`. -/
def posLe (a b : GridLabel) : Bool := a.position ≤ b.position

/-- The collection phase of `extract_grid_system` (grids.py lines 38-63):
floor plans first, then elevations, then — only when both label lists are
still empty — every view. -/
def collectAllLabels (views : List View) (rot : ℤ) :
    List GridLabel × List GridLabel × ViewType :=
  let st1 := collectViews (some ViewType.FLOOR_PLAN) rot views ([], [], ViewType.UNKNOWN)
  let st2 := collectViews (some ViewType.ELEVATION) rot views st1
  if st2.1 = [] ∧ st2.2.1 = [] then
    collectViews none rot views ([], [], ViewType.UNKNOWN)
  else st2

/-- grids.py `extract_grid_system` (lines 33-88): priority collection from
floor plans then elevations, full fallback, dedup by name (first wins),
sort by position. -/
def extract_grid_system (views : List View) (rot : ℤ) : Option GridSystem :=
  let c := collectAllLabels views rot
  if c.1 = [] ∧ c.2.1 = [] then none
  else
    let dx := dedupLabels [] c.1
    let dy := dedupLabels dx.2 c.2.1
    some (GridSystem.mk (sSort posLe dx.1) (sSort posLe dy.1) c.2.2)

/-! ### Lemmas about the grid-extraction pipeline, and claim C3 -/

theorem dedupLabels_mem (l : List GridLabel) (seen : List String) (g : GridLabel)
    (h : g ∈ (dedupLabels seen l).1) : g ∈ l := by
  induction l generalizing seen with
  | nil => simp [dedupLabels] at h
  | cons a ls ih =>
    by_cases ha : a.label ∈ seen
    · simp only [dedupLabels, if_pos ha] at h
      exact List.mem_cons_of_mem a (ih seen h)
    · simp only [dedupLabels, if_neg ha] at h
      rcases List.mem_cons.mp h with hg | hg
      · exact hg ▸ List.mem_cons_self a ls
      · exact List.mem_cons_of_mem a (ih (a.label :: seen) hg)

theorem dedupLabels_first_wins (l : List GridLabel) (seen : List String)
    (g : GridLabel) (h : g ∈ (dedupLabels seen l).1) :
    g.label ∉ seen ∧ l.find? (fun x => x.label == g.label) = some g := by
  induction l generalizing seen with
  | nil => simp [dedupLabels] at h
  | cons a ls ih =>
    by_cases ha : a.label ∈ seen
    · simp only [dedupLabels, if_pos ha] at h
      obtain ⟨hns, hfind⟩ := ih seen h
      have hne : (a.label == g.label) = false := by
        simp only [beq_eq_false_iff_ne, ne_eq]
        intro he
        exact hns (he ▸ ha)
      refine ⟨hns, ?_⟩
      rw [List.find?_cons, hne]
      exact hfind
    · simp only [dedupLabels, if_neg ha] at h
      rcases List.mem_cons.mp h with hg | hg
      · subst hg
        refine ⟨ha, ?_⟩
        rw [List.find?_cons]
        simp
      · obtain ⟨hns, hfind⟩ := ih (a.label :: seen) hg
        have hne : g.label ≠ a.label := fun he => hns (by simp [he])
        have hne2 : (a.label == g.label) = false := by
          simp only [beq_eq_false_iff_ne, ne_eq]
          exact fun he => hne he.symm
        refine ⟨fun hs => hns (List.mem_cons_of_mem _ hs), ?_⟩
        rw [List.find?_cons, hne2]
        exact hfind

theorem dedupLabels_seen_spec (l : List GridLabel) (seen : List String)
    (target : String) :
    target ∈ (dedupLabels seen l).2 ↔
      target ∈ seen ∨ target ∈ (dedupLabels seen l).1.map GridLabel.label := by
  induction l generalizing seen with
  | nil => simp [dedupLabels]
  | cons a ls ih =>
    by_cases ha : a.label ∈ seen
    · simp only [dedupLabels, if_pos ha]
      exact ih seen
    · simp only [dedupLabels, if_neg ha]
      rw [ih (a.label :: seen)]
      simp only [List.map_cons, List.mem_cons]
      tauto

theorem dedupLabels_nodup (l : List GridLabel) (seen : List String) :
    ((dedupLabels seen l).1.map GridLabel.label).Nodup := by
  induction l generalizing seen with
  | nil => simp [dedupLabels]
  | cons a ls ih =>
    by_cases ha : a.label ∈ seen
    · simp only [dedupLabels, if_pos ha]
      exact ih seen
    · simp only [dedupLabels, if_neg ha, List.map_cons]
      refine List.nodup_cons.mpr ⟨?_, ih (a.label :: seen)⟩
      intro hmem
      obtain ⟨g, hg, hlab⟩ := List.mem_map.mp hmem
      have := (dedupLabels_first_wins ls (a.label :: seen) g hg).1
      exact this (by simp [hlab])

theorem digitVal_le (c : Char) (v : ℕ) (h : digitVal c = some v) : v ≤ 9 := by
  unfold digitVal at h
  split_ifs at h with h1 h2
  · simp only [Option.some.injEq] at h
    simp only [Bool.and_eq_true, decide_eq_true_eq] at h1
    omega
  · simp only [Option.some.injEq] at h
    simp only [Bool.and_eq_true, decide_eq_true_eq] at h2
    omega

theorem gridNumericDigits_le (c c2 : Char) (v : ℕ) (l : List Char)
    (h : gridNumericDigits c l = some (c2, v)) : v ≤ 99 := by
  match l with
  | [] => simp [gridNumericDigits] at h
  | [d1] =>
    simp only [gridNumericDigits] at h
    cases hd : digitVal d1 with
    | none => rw [hd] at h; simp at h
    | some v1 =>
      rw [hd] at h
      simp only [Option.map_some', Option.some.injEq, Prod.mk.injEq] at h
      obtain ⟨-, hv⟩ := h
      have := digitVal_le d1 v1 hd
      omega
  | [d1, d2] =>
    simp only [gridNumericDigits] at h
    cases hd1 : digitVal d1 with
    | none => rw [hd1] at h; simp at h
    | some v1 =>
      cases hd2 : digitVal d2 with
      | none => rw [hd1, hd2] at h; simp at h
      | some v2 =>
        rw [hd1, hd2] at h
        simp only [Option.some.injEq, Prod.mk.injEq] at h
        obtain ⟨-, hv⟩ := h
        have e1 := digitVal_le d1 v1 hd1
        have e2 := digitVal_le d2 v2 hd2
        omega
  | d1 :: d2 :: d3 :: ds => simp [gridNumericDigits] at h

theorem matchGridNumeric_le (cs : List Char) (c : Char) (v : ℕ)
    (h : matchGridNumeric cs = some (c, v)) : v ≤ 99 := by
  match cs with
  | [] => simp [matchGridNumeric] at h
  | c0 :: rest =>
    simp only [matchGridNumeric] at h
    split_ifs at h with hax
    exact gridNumericDigits_le c0 c v _ h

theorem findGridLabels_index (texts : List TextSpan) (seen : List String)
    (tup : GridAxis × ℤ × String × TextSpan)
    (h : tup ∈ findGridLabels texts seen) :
    (0 ≤ tup.2.1 ∧ tup.2.1 ≤ 99) ∨ tup.2.1 = 999 := by
  induction texts generalizing seen with
  | nil => simp [findGridLabels] at h
  | cons ts rest ih =>
    cases hmn : matchGridNumeric ((pyStrip ts.text).toList) with
    | some pair =>
      obtain ⟨axisChar, idx⟩ := pair
      simp only [findGridLabels, hmn] at h
      have hle := matchGridNumeric_le _ _ _ hmn
      split_ifs at h with hseen hax <;>
        first
        | exact ih _ h
        | (rcases List.mem_cons.mp h with hg | hg
           · subst hg
             exact Or.inl ⟨Int.ofNat_nonneg idx, show ((idx : ℕ) : ℤ) ≤ 99 by exact_mod_cast hle⟩
           · exact ih _ hg)
    | none =>
      cases hms : matchGridSymbolic ((pyStrip ts.text).toList) with
      | some pair =>
        obtain ⟨axisChar, suffix⟩ := pair
        simp only [findGridLabels, hmn, hms] at h
        split_ifs at h with hseen hax <;>
          first
          | exact ih _ h
          | (rcases List.mem_cons.mp h with hg | hg
             · subst hg; exact Or.inr rfl
             · exact ih _ hg)
      | none =>
        simp only [findGridLabels, hmn, hms] at h
        exact ih seen h

theorem extractFromView_index (v : View) (rot : ℤ) (g : GridLabel)
    (h : g ∈ (extractFromView v rot).1 ∨ g ∈ (extractFromView v rot).2) :
    (0 ≤ g.index ∧ g.index ≤ 99) ∨ g.index = 999 := by
  have hall : ∃ tup ∈ findGridLabels v.texts [], tup.2.1 = g.index := by
    rcases h with h | h <;>
    · simp only [extractFromView] at h
      obtain ⟨tup, htup, hg⟩ := List.mem_map.mp (List.mem_filter.mp h).1
      refine ⟨tup, htup, ?_⟩
      obtain ⟨axis, index, labelText, ts⟩ := tup
      rw [← hg]
  obtain ⟨tup, htup, hidx⟩ := hall
  have := findGridLabels_index v.texts [] tup htup
  rw [← hidx]
  exact this

theorem collectViews_mem_x (target : Option ViewType) (rot : ℤ)
    (views : List View) (st : List GridLabel × List GridLabel × ViewType)
    (g : GridLabel) (h : g ∈ (collectViews target rot views st).1) :
    g ∈ st.1 ∨ ∃ v ∈ views, g ∈ (extractFromView v rot).1 := by
  induction views generalizing st with
  | nil => simp only [collectViews] at h; exact Or.inl h
  | cons v rest ih =>
    simp only [collectViews] at h
    split_ifs at h
    all_goals
      rcases ih _ h with hin | ⟨w, hw, hgw⟩
      · first
        | (rcases List.mem_append.mp hin with hin2 | hin2
           · exact Or.inl hin2
           · exact Or.inr ⟨v, List.mem_cons_self v rest, hin2⟩)
        | exact Or.inl hin
      · exact Or.inr ⟨w, List.mem_cons_of_mem v hw, hgw⟩

theorem collectViews_mem_y (target : Option ViewType) (rot : ℤ)
    (views : List View) (st : List GridLabel × List GridLabel × ViewType)
    (g : GridLabel) (h : g ∈ (collectViews target rot views st).2.1) :
    g ∈ st.2.1 ∨ ∃ v ∈ views, g ∈ (extractFromView v rot).2 := by
  induction views generalizing st with
  | nil => simp only [collectViews] at h; exact Or.inl h
  | cons v rest ih =>
    simp only [collectViews] at h
    split_ifs at h
    all_goals
      rcases ih _ h with hin | ⟨w, hw, hgw⟩
      · first
        | (rcases List.mem_append.mp hin with hin2 | hin2
           · exact Or.inl hin2
           · exact Or.inr ⟨v, List.mem_cons_self v rest, hin2⟩)
        | exact Or.inl hin
      · exact Or.inr ⟨w, List.mem_cons_of_mem v hw, hgw⟩

theorem collectAllLabels_mem (views : List View) (rot : ℤ) (g : GridLabel)
    (h : g ∈ (collectAllLabels views rot).1 ∨ g ∈ (collectAllLabels views rot).2.1) :
    ∃ v ∈ views, g ∈ (extractFromView v rot).1 ∨ g ∈ (extractFromView v rot).2 := by
  simp only [collectAllLabels] at h
  split_ifs at h with hc
  · rcases h with h | h
    · rcases collectViews_mem_x _ _ _ _ _ h with hin | ⟨v, hv, hgv⟩
      · simp at hin
      · exact ⟨v, hv, Or.inl hgv⟩
    · rcases collectViews_mem_y _ _ _ _ _ h with hin | ⟨v, hv, hgv⟩
      · simp at hin
      · exact ⟨v, hv, Or.inr hgv⟩
  · rcases h with h | h
    · rcases collectViews_mem_x _ _ _ _ _ h with hin | ⟨v, hv, hgv⟩
      · rcases collectViews_mem_x _ _ _ _ _ hin with hin2 | ⟨v, hv, hgv⟩
        · simp at hin2
        · exact ⟨v, hv, Or.inl hgv⟩
      · exact ⟨v, hv, Or.inl hgv⟩
    · rcases collectViews_mem_y _ _ _ _ _ h with hin | ⟨v, hv, hgv⟩
      · rcases collectViews_mem_y _ _ _ _ _ hin with hin2 | ⟨v, hv, hgv⟩
        · simp at hin2
        · exact ⟨v, hv, Or.inr hgv⟩
      · exact ⟨v, hv, Or.inr hgv⟩

theorem posLe_total (a b : GridLabel) (h : posLe a b = false) : posLe b a = true := by
  simp only [posLe, decide_eq_false_iff_not] at h
  simp only [posLe, decide_eq_true_eq]
  exact le_of_not_le h

theorem posLe_trans (a b c : GridLabel) (h1 : posLe a b = true)
    (h2 : posLe b c = true) : posLe a c = true := by
  simp only [posLe, decide_eq_true_eq] at h1 h2 ⊢
  exact le_trans h1 h2

/-- Claim C3, amended.  In every `GridSystem` produced by grid extraction:
for a given label name only one `GridLabel` survives deduplication and it is
the first occurrence in collection order (the `find?` clauses); numeric
indices are at most 99 so the symbolic sentinel 999 compares greater than
any numeric index; but the label lists are sorted by page **position**, not
by index — positions need not increase with index (see the
counterexample). -/
theorem C3_grid_dedup_sorted_indexrange (views : List View) (rot : ℤ)
    (gs : GridSystem) (h : extract_grid_system views rot = some gs) :
    (((gs.x_labels ++ gs.y_labels).map GridLabel.label).Nodup) ∧
    (gs.x_labels.Pairwise fun a b => a.position ≤ b.position) ∧
    (gs.y_labels.Pairwise fun a b => a.position ≤ b.position) ∧
    (∀ g ∈ gs.x_labels, (collectAllLabels views rot).1.find?
      (fun x => x.label == g.label) = some g) ∧
    (∀ g ∈ gs.y_labels, (collectAllLabels views rot).2.1.find?
      (fun x => x.label == g.label) = some g) ∧
    (∀ g ∈ gs.x_labels ++ gs.y_labels,
      (0 ≤ g.index ∧ g.index ≤ 99) ∨ g.index = 999) := by
  simp only [extract_grid_system] at h
  split_ifs at h with hc
  case _ =>
    rw [Option.some_inj] at h
    set allX := (collectAllLabels views rot).1 with hallX
    set allY := (collectAllLabels views rot).2.1 with hallY
    set dx := dedupLabels [] allX with hdx
    set dy := dedupLabels dx.2 allY with hdy
    have hx : gs.x_labels = sSort posLe dx.1 := by rw [← h]
    have hy : gs.y_labels = sSort posLe dy.1 := by rw [← h]
    have hpermx : (sSort posLe dx.1).Perm dx.1 := sSort_perm posLe dx.1
    have hpermy : (sSort posLe dy.1).Perm dy.1 := sSort_perm posLe dy.1
    refine ⟨?_, ?_, ?_, ?_, ?_, ?_⟩
    · rw [hx, hy, List.map_append]
      refine List.Nodup.append ?_ ?_ ?_
      · exact ((hpermx.map GridLabel.label).nodup_iff).mpr (dedupLabels_nodup allX [])
      · exact ((hpermy.map GridLabel.label).nodup_iff).mpr (dedupLabels_nodup allY dx.2)
      · intro nm hnmx hnmy
        obtain ⟨gx, hgx, hgxl⟩ := List.mem_map.mp hnmx
        obtain ⟨gy, hgy, hgyl⟩ := List.mem_map.mp hnmy
        have hgx2 : gx ∈ dx.1 := hpermx.mem_iff.mp hgx
        have hgy2 : gy ∈ dy.1 := hpermy.mem_iff.mp hgy
        have hnot : gy.label ∉ dx.2 := (dedupLabels_first_wins allY dx.2 gy hgy2).1
        have hin : gx.label ∈ dx.2 := by
          rw [hdx, dedupLabels_seen_spec]
          exact Or.inr (List.mem_map.mpr ⟨gx, hgx2, rfl⟩)
        rw [hgyl, ← hgxl] at hnot
        exact hnot hin
    · rw [hx]
      exact (sSort_pairwise posLe posLe_total posLe_trans dx.1).imp
        (fun hab => by simpa [posLe] using hab)
    · rw [hy]
      exact (sSort_pairwise posLe posLe_total posLe_trans dy.1).imp
        (fun hab => by simpa [posLe] using hab)
    · intro g hg
      rw [hx] at hg
      exact (dedupLabels_first_wins allX [] g (hpermx.mem_iff.mp hg)).2
    · intro g hg
      rw [hy] at hg
      exact (dedupLabels_first_wins allY dx.2 g (hpermy.mem_iff.mp hg)).2
    · intro g hg
      rcases List.mem_append.mp hg with hg | hg
      · rw [hx] at hg
        have hmem : g ∈ allX := dedupLabels_mem allX [] g (hpermx.mem_iff.mp hg)
        obtain ⟨v, hv, hgv⟩ := collectAllLabels_mem views rot g (Or.inl hmem)
        exact extractFromView_index v rot g hgv
      · rw [hy] at hg
        have hmem : g ∈ allY := dedupLabels_mem allY dx.2 g (hpermy.mem_iff.mp hg)
        obtain ⟨v, hv, hgv⟩ := collectAllLabels_mem views rot g (Or.inr hmem)
        exact extractFromView_index v rot g hgv

/-- A floor-plan view holding the grid-label text X1 centred at page
x = 500 and X2 centred at x = 100, with no grid lines. -/
def c3span1 : TextSpan := TextSpan.mk "X1" (BBox.mk 495 295 505 305) (Point.mk 500 300)

def c3span2 : TextSpan := TextSpan.mk "X2" (BBox.mk 95 295 105 305) (Point.mk 100 300)

def c3view : View :=
  View.mk ViewType.FLOOR_PLAN "平面図" (BBox.mk 0 0 10 10) (BBox.mk 0 0 842 595)
    none [c3span1, c3span2] []

def c3gl1 : GridLabel := GridLabel.mk GridAxis.X "X1" 1 500 c3span1 none

def c3gl2 : GridLabel := GridLabel.mk GridAxis.X "X2" 2 100 c3span2 none

theorem c3_collect_eval :
    collectAllLabels [c3view] 0 = ([c3gl1, c3gl2], [], ViewType.FLOOR_PLAN) := rfl

theorem c3_posLe_eval : posLe c3gl1 c3gl2 = false := by
  simp only [posLe, c3gl1, c3gl2, decide_eq_false_iff_not]
  norm_num

theorem c3_sort_eval : sSort posLe [c3gl1, c3gl2] = [c3gl2, c3gl1] := by
  simp only [sSort, sInsert, c3_posLe_eval, Bool.false_eq_true, if_false]

theorem c3_extract_eval :
    extract_grid_system [c3view] 0 =
      some (GridSystem.mk [c3gl2, c3gl1] [] ViewType.FLOOR_PLAN) := by
  have h1 : extract_grid_system [c3view] 0 =
      some (GridSystem.mk (sSort posLe [c3gl1, c3gl2]) (sSort posLe [])
        ViewType.FLOOR_PLAN) := rfl
  rw [c3_sort_eval] at h1
  exact h1

/-- Counterexample to claim C3 as stated: in the grid system extracted from
a floor plan whose label X1 sits at page position 500 and X2 at position
100, the numeric-index subset has index 1 at position 500 and index 2 at
position 100 — positions do not increase with index. -/
theorem C3_counterexample :
    (extract_grid_system [c3view] 0).map GridSystem.x_labels
        = some [c3gl2, c3gl1]
    ∧ c3gl1.index = 1 ∧ c3gl2.index = 2
    ∧ c3gl1.position = 500 ∧ c3gl2.position = 100 := by
  refine ⟨?_, rfl, rfl, rfl, rfl⟩
  rw [c3_extract_eval]
  rfl

/-- Witness for the amended C3 theorem: its conclusions hold at the
concrete one-view input. -/
theorem C3_witness :
    extract_grid_system [c3view] 0 =
      some (GridSystem.mk [c3gl2, c3gl1] [] ViewType.FLOOR_PLAN) ∧
    ((((GridSystem.mk [c3gl2, c3gl1] [] ViewType.FLOOR_PLAN).x_labels ++
        (GridSystem.mk [c3gl2, c3gl1] [] ViewType.FLOOR_PLAN).y_labels).map
        GridLabel.label).Nodup) ∧
    ((GridSystem.mk [c3gl2, c3gl1] [] ViewType.FLOOR_PLAN).x_labels.Pairwise
      fun a b => a.position ≤ b.position) := by
  refine ⟨c3_extract_eval, ?_, ?_⟩
  · exact (C3_grid_dedup_sorted_indexrange [c3view] 0 _ c3_extract_eval).1
  · exact (C3_grid_dedup_sorted_indexrange [c3view] 0 _ c3_extract_eval).2.1

/-! ## Component G: cross-view matching (src/drawing/matching.py)

As in the grids embedding, floats are rationals; `sorted` is the stable
`sSort`; Python truthiness of optional floats is `optTruthy`. -/

def PT_TO_MM : ℚ := 127 / 360

def qLe (a b : ℚ) : Bool := a ≤ b

def strLe (a b : String) : Bool := a ≤ b

def idxLe (a b : GridLabel) : Bool := a.index ≤ b.index

/-- Keep the first occurrence of each string. -/
def dedupFirstStr : List String → List String → List String
  | [], _ => []
  | x :: xs, seen =>
    if x ∈ seen then dedupFirstStr xs seen
    else x :: dedupFirstStr xs (x :: seen)

/-- Python `sorted(set(names))`. -/
def sortedUniqueNames (l : List String) : List String :=
  sSort strLe (dedupFirstStr l [])

/-- Python `str.upper()` for the characters at hand (ASCII and full-width
Latin letters). -/
def pyUpperChar (c : Char) : Char :=
  if 'a' ≤ c && c ≤ 'z' then c.toUpper
  else if 'ａ' ≤ c && c ≤ 'ｚ' then Char.ofNat (c.toNat - 0x20)
  else c

/-- The full-width-to-half-width replacements of `_detect_elevation_side`
(applied after upper-casing): Ｘ→X, Ｙ→Y, ｘ→X, ｙ→Y. -/
def sideNormChar (c : Char) : Char :=
  if c = 'Ｘ' then 'X'
  else if c = 'Ｙ' then 'Y'
  else if c = 'ｘ' then 'X'
  else if c = 'ｙ' then 'Y'
  else c

/-- Lazy scan of `\S*?通り` for `SIDE_PATTERN`: extend the group with
non-space characters until a 通り immediately follows; fail at a space or
at the end. -/
def sideScan (groupRev : List Char) : List Char → Option String
  | [] => none
  | c :: rest =>
    if startsList ['通', 'り'] (c :: rest) then some (String.mk groupRev.reverse)
    else if isPySpace c then none
    else sideScan (c :: groupRev) rest

/-- Leftmost match of the capture group of `SIDE_PATTERN`
`[（(〈<]?\s*([XYxyＸＹｘｙ]\S*?)通り\s*[）)〉>]?`: the optional bracket and
space prefix and the trailing part are zero-width-satisfiable, so the
leftmost match is determined by the first axis character from which a lazy
non-space run reaches 通り. -/
def sideSearch : List Char → Option String
  | [] => none
  | c :: rest =>
    if isAxisChar c then
      match sideScan [c] rest with
      | some g => some g
      | none => sideSearch rest
    else sideSearch rest

/-- matching.py `_detect_elevation_side` (lines 137-146). -/
def detectElevationSide (title : String) : Option String :=
  match sideSearch title.toList with
  | none => none
  | some g => some (String.mk (g.toList.map (fun c => sideNormChar (pyUpperChar c))))

/-- matching.py `_infer_elevation_side` (lines 149-165). -/
def inferElevationSide (xLabels yLabels : List String) : Option String :=
  if !xLabels.isEmpty && yLabels.isEmpty then some "Y-side"
  else if !yLabels.isEmpty && xLabels.isEmpty then some "X-side"
  else none

/-- matching.py `_build_view_grid_info` (lines 104-134); the per-view dict
read back with default `([], [])` is the per-view extraction itself. -/
def buildViewGridInfo : List View → ℕ → ℤ → List ViewGridInfo
  | [], _, _ => []
  | v :: rest, i, rot =>
    let ex := extractFromView v rot
    let xNames := sortedUniqueNames (ex.1.map GridLabel.label)
    let yNames := sortedUniqueNames (ex.2.map GridLabel.label)
    let side :=
      if v.view_type = ViewType.ELEVATION then
        match detectElevationSide v.title_text with
        | some sd => some sd
        | none => inferElevationSide xNames yNames
      else none
    ViewGridInfo.mk i v.view_type v.title_text side xNames yNames ::
      buildViewGridInfo rest (i + 1) rot

/-- Append a value to an association list entry, creating the entry when
missing and skipping duplicates (the `elevation_info` dict updates in
`_build_frame_links`). -/
def assocAppend : List (String × List String) → String → String →
    List (String × List String)
  | [], k, v => [(k, [v])]
  | (k0, vs) :: rest, k, v =>
    if k0 = k then (k0, if v ∈ vs then vs else vs ++ [v]) :: rest
    else (k0, vs) :: assocAppend rest k v

/-- The `elevation_info` accumulation of `_build_frame_links`. -/
def elevationInfo (vgi : List ViewGridInfo) : List (String × List String) :=
  vgi.foldl (fun m vi =>
    if vi.view_type = ViewType.ELEVATION then
      match vi.grid_side with
      | some sd => vi.x_labels.foldl (fun m2 xl => assocAppend m2 xl sd) m
      | none => m
    else m) []

/-- Last-wins dict lookup `{gl.label: gl.position for gl in grid.x_labels}`. -/
def dictPosition (labels : List GridLabel) (k : String) : Option ℚ :=
  (labels.reverse.find? (fun gl => gl.label == k)).map GridLabel.position

/-- matching.py `_build_frame_links` (lines 173-199): one link per distinct
X label, ordered by plan position. -/
def buildFrameLinks (grid : GridSystem) (vgi : List ViewGridInfo) : List FrameLink :=
  let keys := dedupFirstStr (grid.x_labels.map GridLabel.label) []
  let einfo := elevationInfo vgi
  let keyLe := fun (a b : String) =>
    decide (((dictPosition grid.x_labels a).getD 0 : ℚ) ≤
      (dictPosition grid.x_labels b).getD 0)
  (sSort keyLe keys).map (fun k =>
    FrameLink.mk k (dictPosition grid.x_labels k)
      (sSort strLe (((einfo.find? (fun p => p.1 == k)).map Prod.snd).getD [])))

/-- matching.py `_find_plan_view` (lines 821-826). -/
def findPlanView (views : List View) : Option View :=
  views.find? (fun v => v.view_type == ViewType.FLOOR_PLAN)

/-- Digits of a decimal literal accumulated into a natural number. -/
def digitsToNat (ds : List Char) : ℕ :=
  ds.foldl (fun acc c => acc * 10 + ((digitVal c).getD 0)) 0

/-- matching.py `_parse_scale` (lines 829-834): `re.match(r"1\s*/\s*(\d+)")`. -/
def parseScale (scaleStr : Option String) : Option ℚ :=
  match scaleStr with
  | none => none
  | some s =>
    match s.toList with
    | '1' :: rest =>
      match rest.dropWhile isPySpace with
      | '/' :: r2 =>
        let r3 := r2.dropWhile isPySpace
        let ds := r3.takeWhile (fun c => (digitVal c).isSome)
        if ds.isEmpty then none else some (digitsToNat ds : ℚ)
      | _ => none
    | _ => none

/-- matching.py `_get_param` (lines 837-842). -/
def getParam (params : List AnchoredParam) (name : String) : Option ℚ :=
  (params.find? (fun p => p.name == name)).map AnchoredParam.value

/-- The clustering loop of `_find_distinct_grid_lines`, on an already
sorted list, with the head of the accumulator playing the role of the last
cluster (the accumulator is kept reversed). -/
def clusterPositions (tol : ℚ) : List ℚ → List ℚ → List ℚ
  | acc, [] => acc.reverse
  | [], p :: rest => clusterPositions tol [p] rest
  | last :: accRest, p :: rest =>
    if |p - last| > tol then clusterPositions tol (p :: last :: accRest) rest
    else clusterPositions tol (((last + p) / 2) :: accRest) rest

/-- matching.py `_find_distinct_grid_lines` (lines 765-818). -/
def findDistinctGridLines (view : View) (isYAxis : Bool) (swapped : Bool)
    (minLength : ℚ) : List ℚ :=
  let positions := view.lines.filterMap (fun ln =>
    if ln.length < minLength then none
    else if isYAxis then
      if swapped then
        if is_vertical ln 10 then some ((ln.p1.x + ln.p2.x) / 2) else none
      else
        if is_horizontal ln 10 then some ((ln.p1.y + ln.p2.y) / 2) else none
    else
      if swapped then
        if is_horizontal ln 10 then some ((ln.p1.y + ln.p2.y) / 2) else none
      else
        if is_vertical ln 10 then some ((ln.p1.x + ln.p2.x) / 2) else none)
  if positions.isEmpty then []
  else sSort qLe (clusterPositions 5 [] (sSort qLe positions))

/-- matching.py `_find_matching_dimension` (lines 584-599); the running
`best_diff` starts at infinity, modelled by `none`. -/
def findMatchingDimension (expected : ℚ) (dims : List Dimension)
    (tol : ℚ) : Option Dimension :=
  (dims.foldl (fun best d =>
    if d.dim_type = DimensionType.SINGLE ∨ d.dim_type = DimensionType.REPEAT then
      let diff := |d.value - expected| / max expected 1
      if diff < tol ∧ (match best with
        | none => true
        | some (_, bd) => decide (diff < bd)) = true then some (d, diff) else best
    else best) none).map Prod.fst

/-- All ordered pairs `(positions[i], positions[j])`, `i < j`, in the order
of the two nested loops of `_match_grid_distance`. -/
def listPairs : List ℚ → List (ℚ × ℚ)
  | [] => []
  | x :: xs => xs.map (fun y => (x, y)) ++ listPairs xs

/-- matching.py `_match_grid_distance` (lines 727-762): best (largest
dimension value) match over all pairs of grid-line positions. -/
def matchGridDistance (view : View) (dims : List Dimension) (scale : ℚ)
    (isYAxis : Bool) (swapped : Bool) : Option (Dimension × ℚ) :=
  let positions := findDistinctGridLines view isYAxis swapped 100
  if positions.length < 2 then none
  else
    ((listPairs positions).foldl (fun acc pr =>
      let distMm := |pr.2 - pr.1| * PT_TO_MM * scale
      match findMatchingDimension distMm dims (3 / 100) with
      | some dm => if dm.value > acc.2 then (some (dm, distMm), dm.value) else acc
      | none => acc)
      ((none : Option (Dimension × ℚ)), (0 : ℚ))).1

/-- The inner elevation-containment loop of `_check_multi_span`: some
elevation view that carries Y labels contains the dimension text.  The
source indexes `views[vi.view_index]`; indices come from `enumerate(views)`
and are always in range, an out-of-range index is modelled as no match. -/
def dimInYElevation (views : List View) (vgi : List ViewGridInfo)
    (d : Dimension) : Bool :=
  vgi.any (fun vi =>
    vi.view_type == ViewType.ELEVATION && !vi.y_labels.isEmpty &&
      (match views.get? vi.view_index with
       | some v => v.region.contains d.text_span.center
       | none => false))

/-- One candidate test of the `_check_multi_span` dimension loop. -/
def multiSpanOk (candidate : ℚ) (views : List View) (vgi : List ViewGridInfo)
    (d : Dimension) : Bool :=
  d.dim_type == DimensionType.SINGLE &&
    !(|d.value - candidate| / max candidate 1 > 3 / 100) &&
    (d.source_view == some ViewType.SECTION ||
      (d.source_view == some ViewType.ELEVATION && !views.isEmpty &&
        !vgi.isEmpty && dimInYElevation views vgi d))

/-- matching.py `_check_multi_span` (lines 545-581): try 2× then 3× the
half span; the first dimension that passes wins. -/
def checkMultiSpan (halfSpan : ℚ) (dims : List Dimension) (views : List View)
    (vgi : List ViewGridInfo) : Option Dimension :=
  match dims.find? (multiSpanOk (halfSpan * 2) views vgi) with
  | some d => some d
  | none => dims.find? (multiSpanOk (halfSpan * 3) views vgi)

/-- matching.py `_find_span_from_cross_views` (lines 450-489): the largest
SINGLE dimension of at least 1000 mm from a section or elevation whose text
lies in a section/elevation view carrying Y labels. -/
def findSpanFromCrossViews (dims : List Dimension) (views : List View)
    (vgi : List ViewGridInfo) : Option Dimension :=
  let yViewIdx := (vgi.filter (fun vi =>
    !vi.y_labels.isEmpty &&
      (vi.view_type == ViewType.SECTION || vi.view_type == ViewType.ELEVATION))).map
        ViewGridInfo.view_index
  if yViewIdx.isEmpty then none
  else
    dims.foldl (fun best d =>
      if d.dim_type = DimensionType.SINGLE ∧ ¬(d.value < 1000) ∧
          (d.source_view = some ViewType.SECTION ∨
            d.source_view = some ViewType.ELEVATION) ∧
          yViewIdx.any (fun i =>
            match views.get? i with
            | some v => v.region.contains d.text_span.center
            | none => false) = true then
        match best with
        | none => some d
        | some b => if d.value > b.value then some d else some b
      else best) none

/-- Python `int(q)`: truncation toward zero. -/
def pyTrunc (q : ℚ) : ℤ := if q < 0 then -⌊-q⌋ else ⌊q⌋

/-- Integer rendering `f"{int(s)}"`. -/
def intStr (q : ℚ) : String := toString (pyTrunc q)

/-- Rendering `f"{x:.0f}"` (round to zero decimals). -/
def fmt0 (q : ℚ) : String := toString (pyRound q)

/-- The segment-accumulation loop of `_compute_length_from_repeat`:
SINGLE dimensions of at least twice the pitch that are clean multiples of
it, deduplicated by value in scan order. -/
def repeatSegments (pitch : ℚ) : List Dimension → List ℚ → List ℚ
  | [], _ => []
  | d :: rest, seen =>
    if d.dim_type = DimensionType.SINGLE ∧ ¬(d.value < pitch * 2) ∧
        |d.value / pitch - (pyRound (d.value / pitch) : ℚ)| < 5 / 100 ∧
        d.value ∉ seen then
      d.value :: repeatSegments pitch rest (d.value :: seen)
    else repeatSegments pitch rest seen

/-- matching.py `_compute_length_from_repeat` (lines 492-542).  The `views`
argument is accepted and ignored exactly as in the source. -/
def computeLengthFromRepeat (dims : List Dimension) (_views : List View) :
    Option (ℚ × String) :=
  match (dims.find? (fun d =>
      d.dim_type == DimensionType.REPEAT || d.dim_type == DimensionType.PITCH)).map
        Dimension.value with
  | none => none
  | some pitch =>
    if pitch = 0 then none
    else
      match dims.find? (fun d =>
          d.dim_type == DimensionType.REPEAT && optTruthyInt d.repeat_count) with
      | some d =>
        some (pitch * ((d.repeat_count.getD 0 : ℤ) : ℚ), d.raw_text)
      | none =>
        let segments := repeatSegments pitch dims []
        if segments.isEmpty then none
        else
          let total := segments.sum
          let nTotal := pyRound (total / pitch)
          some (total, String.intercalate "+" (segments.map intStr) ++ "=" ++
            intStr total ++ " (" ++ toString nTotal ++ "×@" ++ intStr pitch ++ ")")

/-- A span parameter anchored to the outermost Y labels, built from a
matched dimension (matching.py lines 246-262 and 271-278 share this
shape). -/
def mkSpanParam (yFirst yLast : Option String) (d : Dimension) : AnchoredParam :=
  AnchoredParam.mk "span" d.value "mm" yFirst yLast d.source_view d.raw_text false

/-- Strategy 1 of the span derivation (matching.py lines 233-263): grid
distance on the plan along Y; when the multi-span check fires its dimension
replaces the matched one. -/
def spanStrategy1 (dims : List Dimension) (scale : Option ℚ)
    (plan_view : Option View) (swapped : Bool) (views : List View)
    (vgi : List ViewGridInfo) : Option Dimension :=
  match plan_view, scale with
  | some pv, some sc =>
    if sc ≠ 0 then
      match matchGridDistance pv dims sc true swapped with
      | some (dim, _) => some ((checkMultiSpan dim.value dims views vgi).getD dim)
      | none => none
    else none
  | _, _ => none

/-- The span section of `_anchor_parameters` (matching.py lines 230-293):
strategies tried in order — plan-view grid distance with the multi-span
check, cross-view span, grid-position fallback. -/
def spanSection (dims : List Dimension) (scale : Option ℚ)
    (plan_view : Option View) (swapped : Bool) (views : List View)
    (vgi : List ViewGridInfo) (yByIndex : List GridLabel)
    (yFirst yLast : Option String) : List AnchoredParam :=
  match (spanStrategy1 dims scale plan_view swapped views vgi).map
      (mkSpanParam yFirst yLast) with
  | some p => [p]
  | none =>
    match (if !views.isEmpty && !vgi.isEmpty then
        findSpanFromCrossViews dims views vgi
      else none).map (mkSpanParam yFirst yLast) with
    | some p => [p]
    | none =>
      if yByIndex.length ≥ 2 ∧ optTruthy scale = true then
        let sc := (scale.getD 0)
        let yPositions := sSort qLe (yByIndex.map GridLabel.position)
        let spanPts := |yPositions.getLast?.getD 0 - yPositions.head?.getD 0|
        if spanPts > 1 then
          [AnchoredParam.mk "span" (pyRound (spanPts * PT_TO_MM * sc) : ℚ) "mm"
            yFirst yLast none "" true]
        else []
      else []

/-- Strategy 1 of the length derivation (matching.py lines 299-309): grid
distance on the plan along X, rejected when it matches the span. -/
def lengthStrategy1 (dims : List Dimension) (scale : Option ℚ)
    (plan_view : Option View) (swapped : Bool) (spanVal : Option ℚ) :
    Option Dimension :=
  match plan_view, scale with
  | some pv, some sc =>
    if sc ≠ 0 then
      match matchGridDistance pv dims sc false swapped with
      | some (dim, _) =>
        if optTruthy spanVal ∧
            |dim.value - spanVal.getD 0| / max (spanVal.getD 0) 1 < 3 / 100 then
          none
        else some dim
      | none => none
    else none
  | _, _ => none

/-- The length section of `_anchor_parameters` (matching.py lines 295-351). -/
def lengthSection (dims : List Dimension) (scale : Option ℚ)
    (plan_view : Option View) (swapped : Bool) (views : List View)
    (spanVal : Option ℚ) (xByIndex : List GridLabel)
    (xFirst xLast : Option String) : List AnchoredParam :=
  match (lengthStrategy1 dims scale plan_view swapped spanVal).map (fun d =>
      AnchoredParam.mk "length" d.value "mm" xFirst xLast d.source_view
        d.raw_text false) with
  | some p => [p]
  | none =>
    match (computeLengthFromRepeat dims views).map (fun tr =>
        AnchoredParam.mk "length" tr.1 "mm" xFirst xLast none tr.2 true) with
    | some p => [p]
    | none =>
      if xByIndex.length ≥ 2 ∧ optTruthy scale = true then
        let sc := scale.getD 0
        let xPositions := sSort qLe (xByIndex.map GridLabel.position)
        let lengthPts := |xPositions.getLast?.getD 0 - xPositions.head?.getD 0|
        if lengthPts > 1 then
          [AnchoredParam.mk "length" (pyRound (lengthPts * PT_TO_MM * sc) : ℚ) "mm"
            xFirst xLast none "" true]
        else []
      else []

/-- The spacing list of the bay-pitch fallback (matching.py lines 364-370):
consecutive position-sorted pairs whose two indices are both numeric
(< 900). -/
def pitchSpacings (sc : ℚ) : List GridLabel → List ℚ
  | a :: b :: rest =>
    (if b.index < 900 ∧ a.index < 900 then
      [|b.position - a.position| * PT_TO_MM * sc]
    else []) ++ pitchSpacings sc (b :: rest)
  | _ => []

/-- The bay-pitch section of `_anchor_parameters` (matching.py lines
353-379): the first PITCH dimension, else the rounded mean of uniform
consecutive numeric X-grid spacings. -/
def pitchSection (grid : GridSystem) (dims : List Dimension)
    (scale : Option ℚ) : List AnchoredParam :=
  match ((dims.filter (fun d => d.dim_type == DimensionType.PITCH)).head?).map
      (fun d => AnchoredParam.mk "bay_pitch" d.value "mm" none none
        d.source_view d.raw_text false) with
  | some p => [p]
  | none =>
    if grid.x_labels.length ≥ 3 ∧ optTruthy scale = true then
      let sc := scale.getD 0
      let xSorted := sSort posLe grid.x_labels
      let spacings := pitchSpacings sc xSorted
      if spacings.isEmpty then []
      else
        let avg := spacings.sum / spacings.length
        if spacings.all (fun sp => decide (|sp - avg| / max avg 1 < 1 / 10)) then
          [AnchoredParam.mk "bay_pitch" (pyRound avg : ℚ) "mm" none none
            none "" true]
        else []
    else []

/-- Descending sort key `-d.value` of the bay-count fallback. -/
def dimValDesc (a b : Dimension) : Bool := decide (b.value ≤ a.value)

/-- The bay-count section of `_anchor_parameters` (matching.py lines
381-428). -/
def bayCountSection (dims : List Dimension) (lengthVal pitchVal : Option ℚ) :
    List AnchoredParam :=
  match ((dims.filter (fun d =>
      d.dim_type == DimensionType.REPEAT && optTruthyInt d.repeat_count)).head?).map
      (fun d => AnchoredParam.mk "bay_count" ((d.repeat_count.getD 0 : ℤ) : ℚ)
        "mm" none none none d.raw_text false) with
  | some p => [p]
  | none =>
    match pitchVal with
    | some p =>
      if p ≠ 0 ∧ p > 0 then
        let b1 : List AnchoredParam :=
          if optTruthy lengthVal then
            let lv := lengthVal.getD 0
            let count := lv / p
            if |count - (pyRound count : ℚ)| < 15 / 100 then
              [AnchoredParam.mk "bay_count" ((pyRound count : ℤ) : ℚ) "mm"
                none none none "" true]
            else []
          else []
        if !b1.isEmpty then b1
        else
          match ((sSort dimValDesc dims).find? (fun d =>
              d.dim_type == DimensionType.SINGLE &&
                !(d.value < p * 2) &&
                !(optTruthy lengthVal && decide (d.value ≥ lengthVal.getD 0)) &&
                decide (|d.value / p - (pyRound (d.value / p) : ℚ)| < 5 / 100))).map
              (fun d =>
                AnchoredParam.mk "bay_count" ((pyRound (d.value / p) : ℤ) : ℚ) "mm"
                  none none none
                  (match ((dims.filter (fun d2 =>
                      d2.dim_type == DimensionType.PITCH)).head?) with
                   | some pd => "from " ++ d.raw_text ++ "/" ++ pd.raw_text
                   | none => "") true) with
          | some p2 => [p2]
          | none => []
      else []
    | none => []

/-- The heights section of `_anchor_parameters` (matching.py lines
430-445). -/
def heightsSection (heights : List HeightParam) : List AnchoredParam :=
  heights.filterMap (fun h =>
    match h.height_type, h.value with
    | HeightType.EAVE_HEIGHT, some v =>
      some (AnchoredParam.mk "eave_height" v "mm" none none h.source_view
        h.raw_text false)
    | HeightType.MAX_HEIGHT, some v =>
      some (AnchoredParam.mk "max_height" v "mm" none none h.source_view
        h.raw_text false)
    | _, _ => none)

/-- matching.py `_anchor_parameters` (lines 207-447): the parameter list is
built by appending the span, length, bay-pitch, bay-count and heights
sections in order, later sections reading earlier results through
`_get_param`. -/
def anchorParameters (grid : GridSystem) (dims : List Dimension)
    (heights : List HeightParam) (scale : Option ℚ) (plan_view : Option View)
    (rot : ℤ) (views : List View) (vgi : List ViewGridInfo) :
    List AnchoredParam :=
  let swapped := rot = 90 || rot = 270
  let yByIndex := sSort idxLe grid.y_labels
  let xByIndex := sSort idxLe grid.x_labels
  let yFirst := yByIndex.head?.map GridLabel.label
  let yLast := yByIndex.getLast?.map GridLabel.label
  let xFirst := xByIndex.head?.map GridLabel.label
  let xLast := xByIndex.getLast?.map GridLabel.label
  let p1 := spanSection dims scale plan_view swapped views vgi yByIndex yFirst yLast
  let p2 := p1 ++ lengthSection dims scale plan_view swapped views
    (getParam p1 "span") xByIndex xFirst xLast
  let p3 := p2 ++ pitchSection grid dims scale
  let p4 := p3 ++ bayCountSection dims (getParam p3 "length") (getParam p3 "bay_pitch")
  p4 ++ heightsSection heights

/-- matching.py `_run_consistency_checks` (lines 607-719). -/
def runConsistencyChecks (vgi : List ViewGridInfo)
    (span length pitch bayCount : Option ℚ) : List QualityCheck :=
  let planViews := vgi.filter (fun v => v.view_type == ViewType.FLOOR_PLAN)
  let elevViews := vgi.filter (fun v => v.view_type == ViewType.ELEVATION)
  let c1 : List QualityCheck :=
    match planViews.head? with
    | some p0 =>
      if elevViews.isEmpty then []
      else
        let elevX := elevViews.foldl (fun acc ev => acc ++ ev.x_labels) []
        let common := p0.x_labels.filter (fun xl => xl ∈ elevX)
        if common.length ≥ 2 then
          [QualityCheck.mk "Grid continuity (plan↔elevation)" GateStatus.PASS
            (toString common.length ++ " shared X-labels: " ++
              String.intercalate ", " (sSort strLe common)) none]
        else if common.length = 1 then
          [QualityCheck.mk "Grid continuity (plan↔elevation)" GateStatus.WARN
            ("Only 1 shared X-label: " ++ String.intercalate ", " common) none]
        else
          [QualityCheck.mk "Grid continuity (plan↔elevation)" GateStatus.FAIL
            "No shared X-labels between plan and elevation" none]
    | none => []
  let c2 : List QualityCheck :=
    if optTruthy span = true ∧ optTruthy pitch = true ∧
        optTruthy bayCount = true ∧ optTruthy length = true then
      let p := pitch.getD 0
      let bc := bayCount.getD 0
      let lv := length.getD 0
      let expected := p * bc
      if |expected - lv| / max lv 1 < 5 / 100 then
        [QualityCheck.mk "Pitch × count = length" GateStatus.PASS
          (fmt0 p ++ " × " ++ fmt0 bc ++ " = " ++ fmt0 expected ++ " ≈ " ++
            fmt0 lv) none]
      else
        [QualityCheck.mk "Pitch × count = length" GateStatus.WARN
          (fmt0 p ++ " × " ++ fmt0 bc ++ " = " ++ fmt0 expected ++ " ≠ " ++
            fmt0 lv) none]
    else []
  let sides := sortedUniqueNames (elevViews.filterMap ViewGridInfo.grid_side)
  let c3 : List QualityCheck :=
    if sides.length ≥ 2 then
      [QualityCheck.mk "Elevation sides identified" GateStatus.PASS
        ("Sides: " ++ String.intercalate ", " sides) none]
    else if sides.length = 1 then
      [QualityCheck.mk "Elevation sides identified" GateStatus.WARN
        ("Only 1 side: " ++ String.intercalate ", " sides) none]
    else if !elevViews.isEmpty then
      [QualityCheck.mk "Elevation sides identified" GateStatus.FAIL
        "No elevation sides detected from titles" none]
    else []
  let entries := [("span", span), ("length", length),
    ("pitch", pitch), ("bay_count", bayCount)]
  let found := (entries.filter (fun e => e.2.isSome)).map Prod.fst
  let missing := (entries.filter (fun e => !e.2.isSome)).map Prod.fst
  let c4 : List QualityCheck :=
    if missing.isEmpty then
      [QualityCheck.mk "Building parameters" GateStatus.PASS
        ("All found: " ++ String.intercalate ", " found) none]
    else if found.length ≥ 2 then
      [QualityCheck.mk "Building parameters" GateStatus.WARN
        ("Found: " ++ String.intercalate ", " found ++ "; Missing: " ++
          String.intercalate ", " missing) none]
    else
      [QualityCheck.mk "Building parameters" GateStatus.FAIL
        ("Missing: " ++ String.intercalate ", " missing) none]
  c1 ++ c2 ++ c3 ++ c4

/-- matching.py `run_matching` (lines 40-96). -/
def run_matching (views : List View) (grid : Option GridSystem)
    (dims : List Dimension) (heights : List HeightParam) (rot : ℤ) :
    Option MatchingResult :=
  match grid with
  | none => none
  | some g =>
    let vgi := buildViewGridInfo views 0 rot
    let frameLinks := buildFrameLinks g vgi
    let planView := findPlanView views
    let scale := parseScale (planView.bind View.scale)
    let anchored := anchorParameters g dims heights scale planView rot views vgi
    let span := getParam anchored "span"
    let length := getParam anchored "length"
    let pitch := getParam anchored "bay_pitch"
    let bayCountF := getParam anchored "bay_count"
    let checks := runConsistencyChecks vgi span length pitch bayCountF
    some (MatchingResult.mk g.source_view vgi frameLinks anchored checks
      span length pitch
      (if optTruthy bayCountF then bayCountF.map pyTrunc else none)
      (getParam anchored "eave_height") (getParam anchored "max_height"))

/-! ### Parameter-name routing lemmas and claim C1 -/

theorem getParam_append (l1 l2 : List AnchoredParam) (n : String) :
    getParam (l1 ++ l2) n = ((getParam l1 n).or (getParam l2 n)) := by
  unfold getParam
  rw [List.find?_append]
  cases l1.find? (fun p => p.name == n) <;> simp [Option.or]

theorem getParam_eq_none_of_names (l : List AnchoredParam) (n : String)
    (h : ∀ p ∈ l, p.name ≠ n) : getParam l n = none := by
  unfold getParam
  rw [List.find?_eq_none.mpr]
  · rfl
  · intro p hp
    simp only [beq_iff_eq]
    exact h p hp

theorem spanSection_name (dims : List Dimension) (scale : Option ℚ)
    (plan_view : Option View) (swapped : Bool) (views : List View)
    (vgi : List ViewGridInfo) (yB : List GridLabel) (yF yL : Option String) :
    ∀ p ∈ spanSection dims scale plan_view swapped views vgi yB yF yL,
      p.name = "span" := by
  intro p hp
  simp only [spanSection] at hp
  repeat' split at hp
  all_goals
    first
      | exact absurd hp (List.not_mem_nil p)
      | (rename_i heq
         obtain ⟨d, -, rfl⟩ := Option.map_eq_some'.mp heq
         rw [List.mem_singleton.mp hp]
         try rfl)
      | (rw [List.mem_singleton.mp hp]
         try rfl)

theorem lengthSection_name (dims : List Dimension) (scale : Option ℚ)
    (plan_view : Option View) (swapped : Bool) (views : List View)
    (spanVal : Option ℚ) (xB : List GridLabel) (xF xL : Option String) :
    ∀ p ∈ lengthSection dims scale plan_view swapped views spanVal xB xF xL,
      p.name = "length" := by
  intro p hp
  simp only [lengthSection] at hp
  repeat' split at hp
  all_goals
    first
      | exact absurd hp (List.not_mem_nil p)
      | (rename_i heq
         obtain ⟨d, -, rfl⟩ := Option.map_eq_some'.mp heq
         rw [List.mem_singleton.mp hp]
         try rfl)
      | (rw [List.mem_singleton.mp hp]
         try rfl)

theorem pitchSection_name (grid : GridSystem) (dims : List Dimension)
    (scale : Option ℚ) :
    ∀ p ∈ pitchSection grid dims scale, p.name = "bay_pitch" := by
  intro p hp
  simp only [pitchSection] at hp
  repeat' split at hp
  all_goals
    first
      | exact absurd hp (List.not_mem_nil p)
      | (rename_i heq
         obtain ⟨d, -, rfl⟩ := Option.map_eq_some'.mp heq
         rw [List.mem_singleton.mp hp]
         try rfl)
      | (rw [List.mem_singleton.mp hp]
         try rfl)

theorem bayCountSection_name (dims : List Dimension)
    (lengthVal pitchVal : Option ℚ) :
    ∀ p ∈ bayCountSection dims lengthVal pitchVal, p.name = "bay_count" := by
  intro p hp
  simp only [bayCountSection] at hp
  repeat' split at hp
  all_goals
    first
      | exact absurd hp (List.not_mem_nil p)
      | (rename_i heq
         obtain ⟨d, -, rfl⟩ := Option.map_eq_some'.mp heq
         rw [List.mem_singleton.mp hp]
         try rfl)
      | (rw [List.mem_singleton.mp hp]
         try rfl)

theorem heightsSection_name (heights : List HeightParam) :
    ∀ p ∈ heightsSection heights,
      p.name = "eave_height" ∨ p.name = "max_height" := by
  intro p hp
  obtain ⟨h, hmem, hfp⟩ := List.mem_filterMap.mp hp
  cases hht : h.height_type <;> cases hhv : h.value <;>
    simp only [hht, hhv] at hfp <;>
    first
      | (rw [← Option.some_inj.mp hfp]; exact Or.inl rfl)
      | (rw [← Option.some_inj.mp hfp]; exact Or.inr rfl)
      | simp at hfp

/-- The bay-pitch value of the anchored parameter list is exactly the
bay-pitch section's: the span and length sections emit only "span" and
"length" parameters, the bay-count and heights sections come later. -/
theorem getParam_bay_pitch (grid : GridSystem) (dims : List Dimension)
    (heights : List HeightParam) (scale : Option ℚ) (plan_view : Option View)
    (rot : ℤ) (views : List View) (vgi : List ViewGridInfo) :
    getParam (anchorParameters grid dims heights scale plan_view rot views vgi)
      "bay_pitch" = getParam (pitchSection grid dims scale) "bay_pitch" := by
  unfold anchorParameters
  rw [List.append_assoc, List.append_assoc, List.append_assoc]
  rw [getParam_append, getParam_append]
  rw [getParam_eq_none_of_names _ _ (fun p hp => by
    rw [spanSection_name _ _ _ _ _ _ _ _ _ p hp]; decide)]
  rw [getParam_eq_none_of_names _ _ (fun p hp => by
    rw [lengthSection_name _ _ _ _ _ _ _ _ _ p hp]; decide)]
  rw [getParam_append]
  have hrest : getParam (bayCountSection dims
      (getParam (spanSection dims scale plan_view (rot = 90 || rot = 270) views
        vgi (sSort idxLe grid.y_labels)
        ((sSort idxLe grid.y_labels).head?.map GridLabel.label)
        ((sSort idxLe grid.y_labels).getLast?.map GridLabel.label) ++
        lengthSection dims scale plan_view (rot = 90 || rot = 270) views
          (getParam (spanSection dims scale plan_view (rot = 90 || rot = 270)
            views vgi (sSort idxLe grid.y_labels)
            ((sSort idxLe grid.y_labels).head?.map GridLabel.label)
            ((sSort idxLe grid.y_labels).getLast?.map GridLabel.label)) "span")
          (sSort idxLe grid.x_labels)
          ((sSort idxLe grid.x_labels).head?.map GridLabel.label)
          ((sSort idxLe grid.x_labels).getLast?.map GridLabel.label) ++
        pitchSection grid dims scale) "length")
      (getParam (spanSection dims scale plan_view (rot = 90 || rot = 270) views
        vgi (sSort idxLe grid.y_labels)
        ((sSort idxLe grid.y_labels).head?.map GridLabel.label)
        ((sSort idxLe grid.y_labels).getLast?.map GridLabel.label) ++
        lengthSection dims scale plan_view (rot = 90 || rot = 270) views
          (getParam (spanSection dims scale plan_view (rot = 90 || rot = 270)
            views vgi (sSort idxLe grid.y_labels)
            ((sSort idxLe grid.y_labels).head?.map GridLabel.label)
            ((sSort idxLe grid.y_labels).getLast?.map GridLabel.label)) "span")
          (sSort idxLe grid.x_labels)
          ((sSort idxLe grid.x_labels).head?.map GridLabel.label)
          ((sSort idxLe grid.x_labels).getLast?.map GridLabel.label) ++
        pitchSection grid dims scale) "bay_pitch") ++
      heightsSection heights) "bay_pitch" = none := by
    rw [getParam_append]
    rw [getParam_eq_none_of_names _ _ (fun p hp => by
      rw [bayCountSection_name _ _ _ p hp]; decide)]
    rw [getParam_eq_none_of_names _ _ (fun p hp => by
      rcases heightsSection_name heights p hp with h | h <;> rw [h] <;> decide)]
    rfl
  rw [hrest]
  cases getParam (pitchSection grid dims scale) "bay_pitch" <;> rfl

theorem find_head_of_all {α : Type} (l : List α) (p : α → Bool)
    (h : ∀ x ∈ l, p x = true) : l.find? p = l.head? := by
  cases l with
  | nil => rfl
  | cons a t =>
    rw [List.find?_cons_of_pos _ (h a (List.mem_cons_self a t))]
    rfl

theorem getParam_pitchSection (g : GridSystem) (dims : List Dimension)
    (sc : Option ℚ) :
    getParam (pitchSection g dims sc) "bay_pitch"
      = ((pitchSection g dims sc).head?).map AnchoredParam.value := by
  unfold getParam
  rw [find_head_of_all _ _ (fun p hp => by
    simp only [beq_iff_eq]
    exact pitchSection_name g dims sc p hp)]

/-- C1 (corrected): the bay-pitch of every matching run comes from the
bay-pitch section alone, which considers only PITCH dimensions — REPEAT
dimensions are ignored, contrary to the spec.  If a PITCH dimension exists,
bay_pitch is the first one's value; otherwise, with at least 3 X-labels and
a known scale, it is the rounded mean of the consecutive numeric-label
spacings provided each is within 10% of the mean; otherwise it is absent. -/
theorem C1_bay_pitch_pitch_dims_only (views : List View) (g : GridSystem)
    (dims : List Dimension) (heights : List HeightParam) (rot : ℤ) :
    ((run_matching views (some g) dims heights rot).map MatchingResult.bay_pitch
        = some (((pitchSection g dims
            (parseScale ((findPlanView views).bind View.scale))).head?).map
          AnchoredParam.value))
    ∧ (∀ sc : Option ℚ, ∀ d : Dimension,
        (dims.filter (fun d => d.dim_type == DimensionType.PITCH)).head?
          = some d →
        ((pitchSection g dims sc).head?).map AnchoredParam.value
          = some d.value)
    ∧ (∀ sc : Option ℚ,
        (dims.filter (fun d => d.dim_type == DimensionType.PITCH)) = [] →
        ¬(g.x_labels.length ≥ 3 ∧ optTruthy sc = true) →
        pitchSection g dims sc = [])
    ∧ (∀ sc : Option ℚ, ∀ sp : List ℚ,
        (dims.filter (fun d => d.dim_type == DimensionType.PITCH)) = [] →
        (g.x_labels.length ≥ 3 ∧ optTruthy sc = true) →
        pitchSpacings (sc.getD 0) (sSort posLe g.x_labels) = sp →
        sp.isEmpty = false →
        sp.all (fun s => decide
          (|s - sp.sum / sp.length| / max (sp.sum / sp.length) 1 < 1 / 10))
          = true →
        pitchSection g dims sc
          = [AnchoredParam.mk "bay_pitch"
              ((pyRound (sp.sum / sp.length) : ℤ) : ℚ) "mm" none none none
              "" true]) := by
  refine ⟨?_, ?_, ?_, ?_⟩
  · simp only [run_matching, Option.map_some']
    rw [getParam_bay_pitch, getParam_pitchSection]
  · intro sc d hd
    simp only [pitchSection, hd, Option.map_some']
    rfl
  · intro sc h0 hc
    simp only [pitchSection, h0, List.head?_nil, Option.map_none']
    rw [if_neg hc]
  · intro sc sp h0 hc hsp hne hall
    simp only [pitchSection, h0, List.head?_nil, Option.map_none']
    rw [if_pos hc]
    simp only [hsp, hne, hall, Bool.false_eq_true, if_false, if_true]

/-- A trivial text span for concrete dimension inputs. -/
def blankSpan : TextSpan := TextSpan.mk "" (BBox.mk 0 0 0 0) (Point.mk 0 0)

/-- A REPEAT dimension "@2000×5" (value 2000, five repeats). -/
def c1dimRep : Dimension :=
  Dimension.mk 2000 "@2000×5" DimensionType.REPEAT (some 5) blankSpan none

/-- An empty grid system (no labels). -/
def c1grid : GridSystem := GridSystem.mk [] [] ViewType.UNKNOWN

/-- C1 counterexample: the sole dimension is a REPEAT dimension with value
2000, so the spec promises bay_pitch = 2000; the code ignores REPEAT
dimensions in the bay-pitch section and emits none. -/
theorem C1_counterexample :
    (run_matching [] (some c1grid) [c1dimRep] [] 0).map MatchingResult.bay_pitch
        = some none
    ∧ c1dimRep.dim_type = DimensionType.REPEAT ∧ c1dimRep.value = 2000 :=
  ⟨rfl, rfl, rfl⟩

/-! ### Claim C8: the multi-span check of the span derivation -/

theorem anchor_span_of_spanSection (grid : GridSystem) (dims : List Dimension)
    (heights : List HeightParam) (scale : Option ℚ) (plan_view : Option View)
    (rot : ℤ) (views : List View) (vgi : List ViewGridInfo) (p : AnchoredParam)
    (h : spanSection dims scale plan_view (rot = 90 || rot = 270) views vgi
        (sSort idxLe grid.y_labels)
        (((sSort idxLe grid.y_labels).head?).map GridLabel.label)
        (((sSort idxLe grid.y_labels).getLast?).map GridLabel.label) = [p]) :
    getParam (anchorParameters grid dims heights scale plan_view rot views vgi)
        "span" = some p.value
    ∧ (anchorParameters grid dims heights scale plan_view rot views
        vgi).find? (fun q => q.name == "span") = some p := by
  have hname : p.name = "span" :=
    spanSection_name dims scale plan_view (rot = 90 || rot = 270) views vgi
      (sSort idxLe grid.y_labels)
      (((sSort idxLe grid.y_labels).head?).map GridLabel.label)
      (((sSort idxLe grid.y_labels).getLast?).map GridLabel.label) p
      (by rw [h]; exact List.mem_singleton_self p)
  have hone : getParam [p] "span" = some p.value := by
    unfold getParam
    rw [List.find?_cons_of_pos _ (by simp [hname])]
    rfl
  have honeF : ([p].find? (fun q => q.name == "span")) = some p :=
    List.find?_cons_of_pos _ (by simp [hname])
  simp only [anchorParameters]
  rw [List.append_assoc, List.append_assoc, List.append_assoc, h]
  constructor
  · rw [getParam_append, hone]
    rfl
  · rw [List.find?_append, honeF]
    rfl

/-- C8 (confirmed): when the grid-distance strategy on the floor plan
matches a base dimension `dim` (half the span) and the first dimension
passing the 2x multi-span test is `d2` (a SINGLE dimension within 3% of
twice the base whose text lies in a section view or a Y-labelled
elevation), the matching result's span is `d2`'s value and the emitted span
parameter is anchored to the outermost Y labels by index. -/
theorem C8_multi_span_section (views : List View) (g : GridSystem)
    (dims : List Dimension) (heights : List HeightParam) (rot : ℤ)
    (pv : View) (sc : ℚ) (dim : Dimension) (dq : ℚ) (d2 : Dimension)
    (hpv : findPlanView views = some pv)
    (hsc : parseScale pv.scale = some sc)
    (hsc0 : sc ≠ 0)
    (hmatch : matchGridDistance pv dims sc true (rot = 90 || rot = 270)
      = some (dim, dq))
    (hfind : dims.find?
        (multiSpanOk (dim.value * 2) views (buildViewGridInfo views 0 rot))
      = some d2) :
    ((run_matching views (some g) dims heights rot).map MatchingResult.span
        = some (some d2.value))
    ∧ ((run_matching views (some g) dims heights rot).map
        (fun mr => mr.anchored_params.find? (fun q => q.name == "span"))
        = some (some (mkSpanParam
            (((sSort idxLe g.y_labels).head?).map GridLabel.label)
            (((sSort idxLe g.y_labels).getLast?).map GridLabel.label) d2)))
    ∧ multiSpanOk (dim.value * 2) views (buildViewGridInfo views 0 rot) d2
        = true := by
  have hs1 : spanStrategy1 dims (some sc) (some pv) (rot = 90 || rot = 270)
      views (buildViewGridInfo views 0 rot) = some d2 := by
    simp only [spanStrategy1]
    rw [if_pos hsc0]
    simp only [hmatch, checkMultiSpan, hfind, Option.getD_some]
  have hs : spanSection dims (some sc) (some pv) (rot = 90 || rot = 270)
      views (buildViewGridInfo views 0 rot) (sSort idxLe g.y_labels)
      (((sSort idxLe g.y_labels).head?).map GridLabel.label)
      (((sSort idxLe g.y_labels).getLast?).map GridLabel.label)
      = [mkSpanParam
          (((sSort idxLe g.y_labels).head?).map GridLabel.label)
          (((sSort idxLe g.y_labels).getLast?).map GridLabel.label) d2] := by
    simp only [spanSection, hs1, Option.map_some']
  have hrt := anchor_span_of_spanSection g dims heights (some sc) (some pv)
    rot views (buildViewGridInfo views 0 rot) _ hs
  refine ⟨?_, ?_, List.find?_some hfind⟩
  · simp only [run_matching, Option.map_some', hpv, Option.some_bind, hsc]
    rw [hrt.1]
    rfl
  · simp only [run_matching, Option.map_some', hpv, Option.some_bind, hsc]
    rw [hrt.2]

/-- Floor plan at scale 1/100 with two horizontal grid lines whose
point-space distance 27000/127 maps to exactly 7500 mm. -/
def c8line1 : Line := Line.mk (Point.mk 0 0) (Point.mk 200 0) 200 0 1

def c8line2 : Line :=
  Line.mk (Point.mk 0 (27000 / 127)) (Point.mk 200 (27000 / 127)) 200 0 1

def c8pv : View :=
  View.mk ViewType.FLOOR_PLAN "平面図" (BBox.mk 0 0 10 10) (BBox.mk 0 0 842 595)
    (some "1/100") [] [c8line1, c8line2]

/-- The base half-span dimension (7500, on the plan) and the full-span
dimension (15000, sourced from the section view). -/
def c8dim7500 : Dimension :=
  Dimension.mk 7500 "7500" DimensionType.SINGLE none blankSpan
    (some ViewType.FLOOR_PLAN)

def c8dim15000 : Dimension :=
  Dimension.mk 15000 "15000" DimensionType.SINGLE none blankSpan
    (some ViewType.SECTION)

def c8dims : List Dimension := [c8dim7500, c8dim15000]

def c8gl1 : GridLabel := GridLabel.mk GridAxis.Y "Y1" 1 0 blankSpan none

def c8gl2 : GridLabel := GridLabel.mk GridAxis.Y "Y2" 2 100 blankSpan none

def c8grid : GridSystem := GridSystem.mk [] [c8gl1, c8gl2] ViewType.FLOOR_PLAN

theorem c8_scale_eval : parseScale c8pv.scale = some 100 := by
  have h : parseScale c8pv.scale = some ((100 : ℕ) : ℚ) := rfl
  rw [h]
  norm_num

theorem c8_lines_eval :
    findDistinctGridLines c8pv true false 100 = [0, 27000 / 127] := by
  have h1 : ((0 : ℚ) + 0) / 2 = 0 := by norm_num
  have h2 : ((27000 / 127 : ℚ) + 27000 / 127) / 2 = 27000 / 127 := by norm_num
  norm_num [findDistinctGridLines, c8pv, c8line1, c8line2, is_horizontal,
    qMod, List.filterMap, sSort, sInsert, qLe, clusterPositions, h1, h2,
    Int.floor_zero, abs_of_nonneg]

theorem c8_match_eval :
    matchGridDistance c8pv c8dims 100 true false = some (c8dim7500, 7500) := by
  have hmax : max (7500 : ℚ) 1 = 7500 := max_eq_left (by norm_num)
  have h77 : |(27000 : ℚ) / 127| = 27000 / 127 := abs_of_nonneg (by norm_num)
  have hfmd : findMatchingDimension 7500 c8dims (3 / 100)
      = some c8dim7500 := by
    norm_num [findMatchingDimension, c8dims, c8dim7500, c8dim15000,
      List.foldl, hmax]
  have hval : c8dim7500.value = 7500 := rfl
  norm_num [matchGridDistance, c8_lines_eval, listPairs, List.foldl, h77,
    PT_TO_MM, hfmd, hval]

theorem c8_find_eval :
    c8dims.find? (multiSpanOk (c8dim7500.value * 2) [c8pv]
        (buildViewGridInfo [c8pv] 0 0))
      = some c8dim15000 := by
  have hmax : max (15000 : ℚ) 1 = 15000 := max_eq_left (by norm_num)
  have h1 : multiSpanOk (c8dim7500.value * 2) [c8pv]
      (buildViewGridInfo [c8pv] 0 0) c8dim7500 = false := by
    norm_num [multiSpanOk, c8dim7500, hmax]
  have h2 : multiSpanOk (c8dim7500.value * 2) [c8pv]
      (buildViewGridInfo [c8pv] 0 0) c8dim15000 = true := by
    norm_num [multiSpanOk, c8dim7500, c8dim15000, hmax]
  simp only [c8dims, List.find?, h1, h2]

/-- C8 witness: on the concrete plan the grid distance gives 7500, the
section view carries the 15000 dimension, and the matching result's span is
15000 anchored Y1 → Y2. -/
theorem C8_witness :
    ((run_matching [c8pv] (some c8grid) c8dims [] 0).map MatchingResult.span
        = some (some 15000))
    ∧ ((run_matching [c8pv] (some c8grid) c8dims [] 0).map
        (fun mr => mr.anchored_params.find? (fun q => q.name == "span"))
        = some (some (mkSpanParam (some "Y1") (some "Y2") c8dim15000))) := by
  have h := C8_multi_span_section [c8pv] c8grid c8dims [] 0 c8pv 100
    c8dim7500 7500 c8dim15000 rfl c8_scale_eval (by norm_num)
    c8_match_eval c8_find_eval
  refine ⟨?_, ?_⟩
  · rw [h.1]
    rfl
  · rw [h.2.1]
    rfl

/-! ## Component F: quality gates (src/drawing/quality.py)

The seven checks, their status thresholds and their message strings follow
the source exactly; Python `str.join` is `String.intercalate`, f-string
number rendering is `toString`. -/

/-- The `.value` string of a `ViewType` (models.py lines 106-111). -/
def viewTypeValue : ViewType → String
  | ViewType.ROOF_PLAN => "屋根伏図"
  | ViewType.FLOOR_PLAN => "平面図"
  | ViewType.ELEVATION => "立面図"
  | ViewType.SECTION => "断面図"
  | ViewType.UNKNOWN => "unknown"

/-- The `.value` string of a `HeightType` (models.py lines 169-174). -/
def heightTypeValue : HeightType → String
  | HeightType.EAVE_HEIGHT => "軒高"
  | HeightType.MAX_HEIGHT => "最高高さ"
  | HeightType.GL => "GL"
  | HeightType.FL => "FL"
  | HeightType.DESIGN_GL => "設計GL"

/-- quality.py `_check_views_detected` (lines 43-64); `len(named) == 1` is
the singleton pattern once `>= 2` has been excluded. -/
def checkViewsDetected (views : List View) : QualityCheck :=
  let named := views.filter (fun v => v.view_type != ViewType.UNKNOWN)
  if named.length ≥ 2 then
    QualityCheck.mk "Views detected" GateStatus.PASS
      (toString named.length ++ " views detected")
      (some (String.intercalate ", "
        (named.map (fun v => viewTypeValue v.view_type))))
  else
    match named with
    | [v] =>
      QualityCheck.mk "Views detected" GateStatus.WARN "Only 1 view detected"
        (some (viewTypeValue v.view_type))
    | _ =>
      QualityCheck.mk "Views detected" GateStatus.FAIL "No views detected"
        (some "Expected at least 平面図 and 立面図")

/-- quality.py `_check_floor_plan_present` (lines 67-80). -/
def checkFloorPlanPresent (views : List View) : QualityCheck :=
  if views.any (fun v => v.view_type == ViewType.FLOOR_PLAN) then
    QualityCheck.mk "Floor plan (平面図)" GateStatus.PASS "平面図 found" none
  else
    QualityCheck.mk "Floor plan (平面図)" GateStatus.FAIL "平面図 not found"
      (some "Floor plan is required for grid extraction")

/-- quality.py `_check_grid_labels` (lines 83-104). -/
def checkGridLabels (grid : Option GridSystem) : QualityCheck :=
  match grid with
  | none =>
    QualityCheck.mk "Grid labels" GateStatus.FAIL "No grid system detected"
      (some "Expected X1, X2, ..., Y1, Y2 labels")
  | some g =>
    if g.x_labels.length ≥ 2 ∧ g.y_labels.length ≥ 1 then
      QualityCheck.mk "Grid labels" GateStatus.PASS
        (toString g.x_labels.length ++ " X-labels, " ++
          toString g.y_labels.length ++ " Y-labels") none
    else
      QualityCheck.mk "Grid labels" GateStatus.WARN
        ("Incomplete grid: " ++ toString g.x_labels.length ++ " X-labels, " ++
          toString g.y_labels.length ++ " Y-labels")
        (some "Expected at least 2 X-labels and 1 Y-label")

/-- quality.py `_check_grid_line_association` (lines 107-134); the float
ratio is the exact rational. -/
def checkGridLineAssociation (grid : Option GridSystem) : QualityCheck :=
  match grid with
  | none =>
    QualityCheck.mk "Grid line association" GateStatus.FAIL "No grid to check"
      none
  | some g =>
    let all_labels := g.x_labels ++ g.y_labels
    let with_lines := all_labels.filter (fun l => l.line.isSome)
    if all_labels.length = 0 then
      QualityCheck.mk "Grid line association" GateStatus.FAIL
        "No grid labels to associate" none
    else if (with_lines.length : ℚ) / all_labels.length ≥ 8 / 10 then
      QualityCheck.mk "Grid line association" GateStatus.PASS
        (toString with_lines.length ++ "/" ++ toString all_labels.length ++
          " labels have lines") none
    else
      QualityCheck.mk "Grid line association" GateStatus.WARN
        ("Only " ++ toString with_lines.length ++ "/" ++
          toString all_labels.length ++ " labels have associated lines") none

/-- quality.py `_check_dimensions_found` (lines 137-156). -/
def checkDimensionsFound (dims : List Dimension) : QualityCheck :=
  if dims.length ≥ 5 then
    QualityCheck.mk "Dimensions found" GateStatus.PASS
      (toString dims.length ++ " dimensions extracted") none
  else if dims.length ≥ 1 then
    QualityCheck.mk "Dimensions found" GateStatus.WARN
      ("Only " ++ toString dims.length ++ " dimensions found")
      (some "Expected at least 5 dimension values")
  else
    QualityCheck.mk "Dimensions found" GateStatus.FAIL "No dimensions found"
      none

/-- quality.py `_check_heights_found` (lines 159-173). -/
def checkHeightsFound (heights : List HeightParam) : QualityCheck :=
  if heights.length ≥ 1 then
    QualityCheck.mk "Heights found" GateStatus.PASS
      (toString heights.length ++ " height parameters found")
      (some (String.intercalate ", "
        (heights.map (fun h => heightTypeValue h.height_type))))
  else
    QualityCheck.mk "Heights found" GateStatus.FAIL
      "No height parameters found" none

/-- quality.py `_check_key_heights` (lines 176-197). -/
def checkKeyHeights (heights : List HeightParam) : QualityCheck :=
  let has_eave := heights.any (fun h => h.height_type == HeightType.EAVE_HEIGHT)
  let has_max := heights.any (fun h => h.height_type == HeightType.MAX_HEIGHT)
  if has_eave && has_max then
    QualityCheck.mk "Key heights (軒高 + 最高高さ)" GateStatus.PASS
      "Both 軒高 and 最高高さ found" none
  else if has_eave || has_max then
    QualityCheck.mk "Key heights (軒高 + 最高高さ)" GateStatus.WARN
      ("Only " ++ (if has_eave then "軒高" else "最高高さ") ++ " found, " ++
        (if has_eave then "最高高さ" else "軒高") ++ " missing") none
  else
    QualityCheck.mk "Key heights (軒高 + 最高高さ)" GateStatus.FAIL
      "Neither 軒高 nor 最高高さ found" none

/-- quality.py `run_quality_gates` (lines 16-40). -/
def run_quality_gates (views : List View) (grid : Option GridSystem)
    (dims : List Dimension) (heights : List HeightParam) : QualityReport :=
  let checks := [checkViewsDetected views, checkFloorPlanPresent views,
    checkGridLabels grid, checkGridLineAssociation grid,
    checkDimensionsFound dims, checkHeightsFound heights,
    checkKeyHeights heights]
  let overall :=
    if checks.any (fun c => c.status == GateStatus.FAIL) then GateStatus.FAIL
    else if checks.any (fun c => c.status == GateStatus.WARN) then
      GateStatus.WARN
    else GateStatus.PASS
  QualityReport.mk overall checks

/-- Severity rank of a gate status: PASS 0, WARN 1, FAIL 2 ("worst" is the
maximum rank). -/
def statusRank : GateStatus → ℕ
  | GateStatus.PASS => 0
  | GateStatus.WARN => 1
  | GateStatus.FAIL => 2

/-! ## Step 3: 3D reconstruction (src/drawing/reconstruction.py)

Coordinates stay rational; only the member length — `round(sqrt(...), 1)` —
needs the reals, so `Member3D.length : ℝ` and the member constructors are
noncomputable.  `positions[0]` / `positions[-1]` on lists that are nonempty
at every call site are `head?.getD 0` / `getLast?.getD 0`. -/

inductive MemberType where
  | COLUMN
  | RAFTER
  | RIDGE_BEAM
  | PURLIN
deriving DecidableEq, Repr

/-- The `.value` string of a `MemberType` (models.py lines 260-264). -/
def memberTypeValue : MemberType → String
  | MemberType.COLUMN => "column"
  | MemberType.RAFTER => "rafter"
  | MemberType.RIDGE_BEAM => "ridge_beam"
  | MemberType.PURLIN => "purlin"

structure Point3D where
  x : ℚ
  y : ℚ
  z : ℚ
deriving DecidableEq, Repr

/-- models.py `Member3D`; the source field `end` is `endp` (Lean keyword). -/
structure Member3D where
  member_type : MemberType
  label : String
  start : Point3D
  endp : Point3D
  length : ℝ
  frame_index : Option ℤ

structure BuildingEnvelope where
  length : ℚ
  span : ℚ
  eave_height : ℚ
  ridge_height : ℚ
deriving DecidableEq, Repr

structure StructuralModel where
  members : List Member3D
  envelope : BuildingEnvelope
  frame_count : ℤ
  bay_count : ℤ
  bay_pitch : ℚ
  x_grid_positions : List ℚ
  y_grid_positions : List ℚ
  member_summary : List (String × ℕ)

/-- Squared Euclidean distance of `_compute_length_3d`, kept rational. -/
def length3dSq (s e : Point3D) : ℚ :=
  (e.x - s.x) * (e.x - s.x) + (e.y - s.y) * (e.y - s.y) +
    (e.z - s.z) * (e.z - s.z)

/-- reconstruction.py `_make_member` (lines 136-151):
`round(sqrt(...), 1)`. -/
noncomputable def makeMember (mt : MemberType) (s e : Point3D) (label : String)
    (fi : Option ℤ) : Member3D :=
  Member3D.mk mt label s e (pyRound1R (Real.sqrt ((length3dSq s e : ℚ) : ℝ)))
    fi

/-- reconstruction.py `_build_y_positions` (lines 103-120). -/
def buildYPositions (span : ℚ) (grid : Option GridSystem) : List ℚ :=
  match grid with
  | some g =>
    if g.y_labels.length ≥ 3 then
      let positions := sSort qLe ((sSort idxLe g.y_labels).map
        GridLabel.position)
      let pMin := positions.head?.getD 0
      let pMax := positions.getLast?.getD 0
      if pMax - pMin > 0 then
        positions.map (fun p => (p - pMin) / (pMax - pMin) * span)
      else [0, span]
    else [0, span]
  | none => [0, span]

/-- reconstruction.py `_generate_frame_members` (lines 154-194). -/
noncomputable def generateFrameMembers (xi : ℚ) (frame_idx : ℕ)
    (y_positions : List ℚ) (z_eave z_ridge span : ℚ) : List Member3D :=
  let y_ridge := span / 2
  (y_positions.enum.map (fun jy =>
    makeMember MemberType.COLUMN (Point3D.mk xi jy.2 0)
      (Point3D.mk xi jy.2 z_eave)
      ("C-F" ++ toString frame_idx ++ "-Y" ++ toString (jy.1 + 1))
      (some (frame_idx : ℤ)))) ++
  [makeMember MemberType.RAFTER
      (Point3D.mk xi (y_positions.head?.getD 0) z_eave)
      (Point3D.mk xi y_ridge z_ridge)
      ("R-F" ++ toString frame_idx ++ "-L") (some (frame_idx : ℤ)),
    makeMember MemberType.RAFTER (Point3D.mk xi y_ridge z_ridge)
      (Point3D.mk xi (y_positions.getLast?.getD 0) z_eave)
      ("R-F" ++ toString frame_idx ++ "-R") (some (frame_idx : ℤ))]

/-- reconstruction.py `_generate_purlins` (lines 197-243); the loop
`for k in range(1, n+1)` is `List.range n` shifted by one. -/
noncomputable def generatePurlins (x_positions y_positions : List ℚ)
    (z_eave z_ridge span : ℚ) (n_purlins_per_slope : ℕ := 4) :
    List Member3D :=
  let y_ridge := span / 2
  let y_left := y_positions.head?.getD 0
  let y_right := y_positions.getLast?.getD 0
  List.flatten ((List.range (x_positions.length - 1)).map (fun bay_idx =>
    let x_start := (x_positions.get? bay_idx).getD 0
    let x_end := (x_positions.get? (bay_idx + 1)).getD 0
    ((List.range n_purlins_per_slope).map (fun k0 =>
      let t : ℚ := (k0 + 1 : ℕ) / (n_purlins_per_slope + 1 : ℕ)
      let y_p := y_left + t * (y_ridge - y_left)
      let z_p := z_eave + t * (z_ridge - z_eave)
      makeMember MemberType.PURLIN (Point3D.mk x_start y_p z_p)
        (Point3D.mk x_end y_p z_p)
        ("P-B" ++ toString bay_idx ++ "-L" ++ toString (k0 + 1)) none)) ++
    ((List.range n_purlins_per_slope).map (fun k0 =>
      let t : ℚ := (k0 + 1 : ℕ) / (n_purlins_per_slope + 1 : ℕ)
      let y_p := y_ridge + t * (y_right - y_ridge)
      let z_p := z_ridge + t * (z_eave - z_ridge)
      makeMember MemberType.PURLIN (Point3D.mk x_start y_p z_p)
        (Point3D.mk x_end y_p z_p)
        ("P-B" ++ toString bay_idx ++ "-R" ++ toString (k0 + 1)) none))))

/-- `collections.Counter` over strings, first-occurrence key order. -/
def counterInc : List (String × ℕ) → String → List (String × ℕ)
  | [], k => [(k, 1)]
  | (k', n) :: rest, k =>
    if k' = k then (k', n + 1) :: rest else (k', n) :: counterInc rest k

def counter (keys : List String) : List (String × ℕ) :=
  keys.foldl counterInc []

/-- reconstruction.py `reconstruct_3d` (lines 27-95). -/
noncomputable def reconstruct_3d (matching : MatchingResult)
    (grid : Option GridSystem) : Option StructuralModel :=
  match matching.span, matching.eave_height, matching.max_height,
      matching.bay_pitch, matching.bay_count with
  | some span, some eave, some ridge, some pitch, some bay_count =>
    let length := match matching.length with
      | some l => l
      | none => pitch * (bay_count : ℚ)
    let x_positions := (List.range (bay_count + 1).toNat).map
      (fun i => (i : ℚ) * pitch)
    let y_positions := buildYPositions span grid
    let frames := List.flatten (x_positions.enum.map (fun p =>
      generateFrameMembers p.2 p.1 y_positions eave ridge span))
    let members := frames ++
      [makeMember MemberType.RIDGE_BEAM (Point3D.mk 0 (span / 2) ridge)
        (Point3D.mk length (span / 2) ridge) "RB" none] ++
      generatePurlins x_positions y_positions eave ridge span
    some (StructuralModel.mk members
      (BuildingEnvelope.mk length span eave ridge) (bay_count + 1) bay_count
      pitch x_positions y_positions
      (counter (members.map (fun m => memberTypeValue m.member_type))))
  | _, _, _, _, _ => none

/-! ## Step 4: quantity takeoff (src/drawing/quantity.py) -/

structure MemberGroup where
  member_type : MemberType
  unit_length : ℝ
  count : ℕ
  total_length : ℝ
  sectionName : Option String
  unit_weight : Option ℝ
  total_weight : Option ℝ
  member_labels : List String

structure QuantityTakeoff where
  groups : List MemberGroup
  total_members : ℕ
  total_length : ℝ
  total_weight : Option ℝ
  group_tolerance : ℝ

/-- quantity.py `_TYPE_ORDER.get(t, 99)` (the dict covers every type). -/
def typeOrder : MemberType → ℕ
  | MemberType.COLUMN => 0
  | MemberType.RAFTER => 1
  | MemberType.RIDGE_BEAM => 2
  | MemberType.PURLIN => 3

/-- quantity.py `_round_to` (lines 76-80). -/
noncomputable def roundTo (value tolerance : ℝ) : ℝ :=
  if tolerance ≤ 0 then pyRound1R value
  else (pyRoundR (value / tolerance) : ℝ) * tolerance

/-- `defaultdict(list)` bucket insertion, first-occurrence key order. -/
noncomputable def bucketAdd :
    List ((MemberType × ℝ) × List String) → MemberType × ℝ → String →
      List ((MemberType × ℝ) × List String)
  | [], key, lbl => [(key, [lbl])]
  | (k, ls) :: rest, key, lbl =>
    if k = key then (k, ls ++ [lbl]) :: rest
    else (k, ls) :: bucketAdd rest key lbl

/-- The Python sort key `(type_order, -unit_length)`, as a total Bool
comparison for the stable sort. -/
noncomputable def groupLe (a b : MemberGroup) : Bool :=
  decide (typeOrder a.member_type < typeOrder b.member_type ∨
    (typeOrder a.member_type = typeOrder b.member_type ∧
      b.unit_length ≤ a.unit_length))

/-- quantity.py `compute_quantity_takeoff` (lines 28-73). -/
noncomputable def compute_quantity_takeoff (model : StructuralModel)
    (tolerance : ℝ := 10) : QuantityTakeoff :=
  let buckets := model.members.foldl (fun bs m =>
    bucketAdd bs (m.member_type, roundTo m.length tolerance) m.label) []
  let groups := buckets.map (fun b =>
    MemberGroup.mk b.1.1 b.1.2 b.2.length (b.1.2 * (b.2.length : ℝ)) none
      none none b.2)
  let sorted := sSort groupLe groups
  QuantityTakeoff.mk sorted ((sorted.map MemberGroup.count).sum)
    ((sorted.map MemberGroup.total_length).sum) none tolerance

/-- analyzer.py `analyze_drawing` steps F, 2, 3 and 4 (lines 133-162): the
quality report is computed first and the later stages run on the extraction
outputs alone. -/
noncomputable def analyzePipeline (views : List View)
    (grid : Option GridSystem) (dims : List Dimension)
    (heights : List HeightParam) (rot : ℤ) :
    QualityReport × Option MatchingResult × Option StructuralModel ×
      Option QuantityTakeoff :=
  let quality := run_quality_gates views grid dims heights
  let matching := run_matching views grid dims heights rot
  let structural_model := matching.bind (fun m => reconstruct_3d m grid)
  let takeoff := structural_model.map (fun sm =>
    compute_quantity_takeoff sm 10)
  (quality, matching, structural_model, takeoff)

theorem le_foldr_max (l : List ℕ) (x : ℕ) (h : x ∈ l) :
    x ≤ l.foldr max 0 := by
  induction l with
  | nil => cases h
  | cons a t ih =>
    rcases List.mem_cons.mp h with rfl | h
    · exact le_max_left _ _
    · exact le_trans (ih h) (le_max_right _ _)

theorem foldr_max_le (l : List ℕ) (b : ℕ) (h : ∀ x ∈ l, x ≤ b) :
    l.foldr max 0 ≤ b := by
  induction l with
  | nil => exact Nat.zero_le b
  | cons a t ih =>
    exact max_le (h a (List.mem_cons_self a t))
      (ih (fun x hx => h x (List.mem_cons_of_mem a hx)))

theorem statusRank_le_two (s : GateStatus) : statusRank s ≤ 2 := by
  cases s <;> simp [statusRank]

/-- The worst-of rule of `run_quality_gates`: the overall status computed by
the two `any` tests has the maximal severity rank of the checks. -/
theorem overall_rank (l : List QualityCheck) :
    statusRank
        (if l.any (fun c => c.status == GateStatus.FAIL) then GateStatus.FAIL
         else if l.any (fun c => c.status == GateStatus.WARN) then
           GateStatus.WARN
         else GateStatus.PASS)
      = (l.map (fun c => statusRank c.status)).foldr max 0 := by
  split_ifs with hf hw
  · obtain ⟨c, hc, hcf⟩ := List.any_eq_true.mp hf
    rw [beq_iff_eq] at hcf
    have h2 : 2 ≤ (l.map (fun c => statusRank c.status)).foldr max 0 :=
      le_foldr_max _ _ (List.mem_map.mpr ⟨c, hc, by rw [hcf]; rfl⟩)
    have hle : (l.map (fun c => statusRank c.status)).foldr max 0 ≤ 2 :=
      foldr_max_le _ 2 (fun x hx => by
        obtain ⟨c', -, rfl⟩ := List.mem_map.mp hx
        exact statusRank_le_two c'.status)
    exact le_antisymm h2 hle
  · obtain ⟨c, hc, hcw⟩ := List.any_eq_true.mp hw
    rw [beq_iff_eq] at hcw
    have h1 : 1 ≤ (l.map (fun c => statusRank c.status)).foldr max 0 :=
      le_foldr_max _ _ (List.mem_map.mpr ⟨c, hc, by rw [hcw]; rfl⟩)
    have hle : (l.map (fun c => statusRank c.status)).foldr max 0 ≤ 1 :=
      foldr_max_le _ 1 (fun x hx => by
        obtain ⟨c', hc', rfl⟩ := List.mem_map.mp hx
        have hnf : c'.status ≠ GateStatus.FAIL := by
          intro hE
          exact (List.any_eq_true.not.mp hf) ⟨c', hc', by rw [hE]; rfl⟩
        show statusRank c'.status ≤ 1
        cases hs : c'.status
        · decide
        · decide
        · exact absurd hs hnf)
    exact le_antisymm h1 hle
  · have hle : (l.map (fun c => statusRank c.status)).foldr max 0 ≤ 0 :=
      foldr_max_le _ 0 (fun x hx => by
        obtain ⟨c', hc', rfl⟩ := List.mem_map.mp hx
        have hnf : c'.status ≠ GateStatus.FAIL := by
          intro hE
          exact (List.any_eq_true.not.mp hf) ⟨c', hc', by rw [hE]; rfl⟩
        have hnw : c'.status ≠ GateStatus.WARN := by
          intro hE
          exact (List.any_eq_true.not.mp hw) ⟨c', hc', by rw [hE]; rfl⟩
        show statusRank c'.status ≤ 0
        cases hs : c'.status
        · decide
        · exact absurd hs hnw
        · exact absurd hs hnf)
    exact le_antisymm (Nat.zero_le _) hle

/-- C9 (confirmed): the quality component always emits exactly seven
checks, each PASS, WARN or FAIL; the overall status is the worst (maximal
severity) of the seven; and quality never gates the rest of the pipeline —
the matching, reconstruction and takeoff components of the analyzer flow
are exactly the direct applications of their stage functions, independent
of the quality report. -/
theorem C9_quality_seven_worst_nonblocking (views : List View)
    (grid : Option GridSystem) (dims : List Dimension)
    (heights : List HeightParam) (rot : ℤ) :
    ((run_quality_gates views grid dims heights).checks.length = 7)
    ∧ (∀ c ∈ (run_quality_gates views grid dims heights).checks,
        c.status = GateStatus.PASS ∨ c.status = GateStatus.WARN ∨
          c.status = GateStatus.FAIL)
    ∧ (statusRank (run_quality_gates views grid dims heights).overall
        = ((run_quality_gates views grid dims heights).checks.map
            (fun c => statusRank c.status)).foldr max 0)
    ∧ ((analyzePipeline views grid dims heights rot).1
        = run_quality_gates views grid dims heights)
    ∧ ((analyzePipeline views grid dims heights rot).2.1
        = run_matching views grid dims heights rot)
    ∧ ((analyzePipeline views grid dims heights rot).2.2.1
        = (run_matching views grid dims heights rot).bind
            (fun m => reconstruct_3d m grid))
    ∧ ((analyzePipeline views grid dims heights rot).2.2.2
        = ((run_matching views grid dims heights rot).bind
            (fun m => reconstruct_3d m grid)).map
              (fun sm => compute_quantity_takeoff sm 10)) := by
  refine ⟨rfl, ?_, ?_, rfl, rfl, rfl, rfl⟩
  · intro c _
    cases c.status
    · exact Or.inl rfl
    · exact Or.inr (Or.inl rfl)
    · exact Or.inr (Or.inr rfl)
  · exact overall_rank _

/-! ### Claim C5: structural-model invariants -/

theorem makeMember_type (mt : MemberType) (s e : Point3D) (lb : String)
    (fi : Option ℤ) : (makeMember mt s e lb fi).member_type = mt := rfl

/-- Shape of every member emitted by `_generate_frame_members`: a column at
one of the y positions, or one of the two rafters. -/
theorem mem_generateFrameMembers (m : Member3D) (xi : ℚ) (fi : ℕ)
    (yps : List ℚ) (e r s : ℚ)
    (h : m ∈ generateFrameMembers xi fi yps e r s) :
    (∃ j yj, (j, yj) ∈ yps.enum ∧
      m = makeMember MemberType.COLUMN (Point3D.mk xi yj 0)
        (Point3D.mk xi yj e)
        ("C-F" ++ toString fi ++ "-Y" ++ toString (j + 1)) (some (fi : ℤ)))
    ∨ m = makeMember MemberType.RAFTER
        (Point3D.mk xi (yps.head?.getD 0) e) (Point3D.mk xi (s / 2) r)
        ("R-F" ++ toString fi ++ "-L") (some (fi : ℤ))
    ∨ m = makeMember MemberType.RAFTER (Point3D.mk xi (s / 2) r)
        (Point3D.mk xi (yps.getLast?.getD 0) e)
        ("R-F" ++ toString fi ++ "-R") (some (fi : ℤ)) := by
  simp only [generateFrameMembers] at h
  rcases List.mem_append.mp h with h | h
  · obtain ⟨jy, hjy, rfl⟩ := List.mem_map.mp h
    exact Or.inl ⟨jy.1, jy.2, hjy, rfl⟩
  · rcases List.mem_cons.mp h with rfl | h
    · exact Or.inr (Or.inl rfl)
    · rw [List.mem_singleton.mp h]
      exact Or.inr (Or.inr rfl)

/-- Every member of `_generate_purlins` is a purlin. -/
theorem mem_generatePurlins_type (m : Member3D) (xps yps : List ℚ)
    (e r s : ℚ) (n : ℕ) (h : m ∈ generatePurlins xps yps e r s n) :
    m.member_type = MemberType.PURLIN := by
  simp only [generatePurlins] at h
  obtain ⟨l, hl, hm⟩ := List.mem_flatten.mp h
  obtain ⟨bi, hbi, rfl⟩ := List.mem_map.mp hl
  rcases List.mem_append.mp hm with hm | hm <;>
    · obtain ⟨k0, hk0, rfl⟩ := List.mem_map.mp hm
      rfl

/-- C5 (confirmed): in every structural model, every COLUMN rises from z=0
to z=eave at a fixed (x,y); each RAFTER endpoint pair (y,z) lies in the set
of the two eave corners and the ridge point, at the rafter's own x; and the
RIDGE_BEAM members are exactly the single beam on y=span/2, z=ridge from
x=0 to x=length. -/
theorem C5_structural_invariants (matching : MatchingResult)
    (grid : Option GridSystem) (sm : StructuralModel)
    (h : reconstruct_3d matching grid = some sm) :
    (∀ m ∈ sm.members, m.member_type = MemberType.COLUMN →
      m.start.z = 0 ∧ m.endp.z = sm.envelope.eave_height ∧
        m.endp.x = m.start.x ∧ m.endp.y = m.start.y)
    ∧ (∀ m ∈ sm.members, m.member_type = MemberType.RAFTER →
      m.endp.x = m.start.x ∧
      (m.start.y, m.start.z) ∈
        [(sm.y_grid_positions.head?.getD 0, sm.envelope.eave_height),
          (sm.envelope.span / 2, sm.envelope.ridge_height),
          (sm.y_grid_positions.getLast?.getD 0, sm.envelope.eave_height)] ∧
      (m.endp.y, m.endp.z) ∈
        [(sm.y_grid_positions.head?.getD 0, sm.envelope.eave_height),
          (sm.envelope.span / 2, sm.envelope.ridge_height),
          (sm.y_grid_positions.getLast?.getD 0, sm.envelope.eave_height)])
    ∧ (sm.members.filter (fun m => m.member_type == MemberType.RIDGE_BEAM)
        = [makeMember MemberType.RIDGE_BEAM
            (Point3D.mk 0 (sm.envelope.span / 2) sm.envelope.ridge_height)
            (Point3D.mk sm.envelope.length (sm.envelope.span / 2)
              sm.envelope.ridge_height) "RB" none]) := by
  cases hsp : matching.span with
  | none => simp [reconstruct_3d, hsp] at h
  | some span =>
  cases hev : matching.eave_height with
  | none => simp [reconstruct_3d, hsp, hev] at h
  | some eave =>
  cases hrd : matching.max_height with
  | none => simp [reconstruct_3d, hsp, hev, hrd] at h
  | some ridge =>
  cases hpt : matching.bay_pitch with
  | none => simp [reconstruct_3d, hsp, hev, hrd, hpt] at h
  | some pitch =>
  cases hbc : matching.bay_count with
  | none => simp [reconstruct_3d, hsp, hev, hrd, hpt, hbc] at h
  | some bay_count =>
  simp only [reconstruct_3d, hsp, hev, hrd, hpt, hbc] at h
  obtain rfl := Option.some_inj.mp h
  refine ⟨?_, ?_, ?_⟩
  · intro m hm hmt
    rcases List.mem_append.mp hm with hm | hm
    · rcases List.mem_append.mp hm with hm | hm
      · obtain ⟨l, hl, hm⟩ := List.mem_flatten.mp hm
        obtain ⟨p, hp, rfl⟩ := List.mem_map.mp hl
        rcases mem_generateFrameMembers m p.2 p.1 _ _ _ _ hm with
          ⟨j, yj, hjy, rfl⟩ | rfl | rfl
        · exact ⟨rfl, rfl, rfl, rfl⟩
        · exact absurd hmt (by simp [makeMember])
        · exact absurd hmt (by simp [makeMember])
      · rw [List.mem_singleton.mp hm] at hmt
        exact absurd hmt (by simp [makeMember])
    · rw [mem_generatePurlins_type m _ _ _ _ _ _ hm] at hmt
      exact absurd hmt (by simp)
  · intro m hm hmt
    rcases List.mem_append.mp hm with hm | hm
    · rcases List.mem_append.mp hm with hm | hm
      · obtain ⟨l, hl, hm⟩ := List.mem_flatten.mp hm
        obtain ⟨p, hp, rfl⟩ := List.mem_map.mp hl
        rcases mem_generateFrameMembers m p.2 p.1 _ _ _ _ hm with
          ⟨j, yj, hjy, rfl⟩ | rfl | rfl
        · exact absurd hmt (by simp [makeMember])
        · exact ⟨rfl, List.mem_cons_self _ _,
            List.mem_cons_of_mem _ (List.mem_cons_self _ _)⟩
        · exact ⟨rfl, List.mem_cons_of_mem _ (List.mem_cons_self _ _),
            List.mem_cons_of_mem _ (List.mem_cons_of_mem _
              (List.mem_cons_self _ _))⟩
      · rw [List.mem_singleton.mp hm] at hmt
        exact absurd hmt (by simp [makeMember])
    · rw [mem_generatePurlins_type m _ _ _ _ _ _ hm] at hmt
      exact absurd hmt (by simp)
  · rw [List.filter_append, List.filter_append]
    have hf1 : List.filter (fun m => m.member_type == MemberType.RIDGE_BEAM)
        (List.flatten (((List.range (bay_count + 1).toNat).map
            (fun i => (i : ℚ) * pitch)).enum.map (fun p =>
          generateFrameMembers p.2 p.1
            (buildYPositions span grid) eave ridge span))) = [] := by
      rw [List.filter_eq_nil_iff]
      intro m hm
      obtain ⟨l, hl, hm⟩ := List.mem_flatten.mp hm
      obtain ⟨p, hp, rfl⟩ := List.mem_map.mp hl
      rcases mem_generateFrameMembers m p.2 p.1 _ _ _ _ hm with
        ⟨j, yj, hjy, rfl⟩ | rfl | rfl <;> simp [makeMember]
    have hf3 : List.filter (fun m => m.member_type == MemberType.RIDGE_BEAM)
        (generatePurlins ((List.range (bay_count + 1).toNat).map
            (fun i => (i : ℚ) * pitch)) (buildYPositions span grid)
          eave ridge span) = [] := by
      rw [List.filter_eq_nil_iff]
      intro m hm
      have hp := mem_generatePurlins_type m _ _ _ _ _ _ hm
      simp [hp]
    rw [hf1, hf3]
    rfl

/-- A minimal complete matching result: span 10, eave 3, ridge 4, pitch 6,
zero bays, no length. -/
def c5matching : MatchingResult :=
  MatchingResult.mk ViewType.UNKNOWN [] [] [] [] (some 10) none (some 6)
    (some 0) (some 3) (some 4)

/-- The model reconstructed from `c5matching` with no grid: one frame of
two columns and two rafters, plus the ridge beam; no purlins. -/
noncomputable def c5model : StructuralModel :=
  StructuralModel.mk
    [makeMember MemberType.COLUMN (Point3D.mk (((0 : ℕ) : ℚ) * 6) 0 0)
        (Point3D.mk (((0 : ℕ) : ℚ) * 6) 0 3) "C-F0-Y1" (some 0),
      makeMember MemberType.COLUMN (Point3D.mk (((0 : ℕ) : ℚ) * 6) 10 0)
        (Point3D.mk (((0 : ℕ) : ℚ) * 6) 10 3) "C-F0-Y2" (some 0),
      makeMember MemberType.RAFTER (Point3D.mk (((0 : ℕ) : ℚ) * 6) 0 3)
        (Point3D.mk (((0 : ℕ) : ℚ) * 6) (10 / 2) 4) "R-F0-L" (some 0),
      makeMember MemberType.RAFTER
        (Point3D.mk (((0 : ℕ) : ℚ) * 6) (10 / 2) 4)
        (Point3D.mk (((0 : ℕ) : ℚ) * 6) 10 3) "R-F0-R" (some 0),
      makeMember MemberType.RIDGE_BEAM (Point3D.mk 0 (10 / 2) 4)
        (Point3D.mk (6 * ((0 : ℤ) : ℚ)) (10 / 2) 4) "RB" none]
    (BuildingEnvelope.mk (6 * ((0 : ℤ) : ℚ)) 10 3 4) 1 0 6
    [((0 : ℕ) : ℚ) * 6] [0, 10]
    [("column", 2), ("rafter", 2), ("ridge_beam", 1)]

theorem c5_model_eval : reconstruct_3d c5matching none = some c5model := rfl

/-- C5 witness: the invariants hold at the one-frame concrete model. -/
theorem C5_witness :
    (∀ m ∈ c5model.members, m.member_type = MemberType.COLUMN →
      m.start.z = 0 ∧ m.endp.z = c5model.envelope.eave_height ∧
        m.endp.x = m.start.x ∧ m.endp.y = m.start.y)
    ∧ (∀ m ∈ c5model.members, m.member_type = MemberType.RAFTER →
      m.endp.x = m.start.x ∧
      (m.start.y, m.start.z) ∈
        [(c5model.y_grid_positions.head?.getD 0,
            c5model.envelope.eave_height),
          (c5model.envelope.span / 2, c5model.envelope.ridge_height),
          (c5model.y_grid_positions.getLast?.getD 0,
            c5model.envelope.eave_height)] ∧
      (m.endp.y, m.endp.z) ∈
        [(c5model.y_grid_positions.head?.getD 0,
            c5model.envelope.eave_height),
          (c5model.envelope.span / 2, c5model.envelope.ridge_height),
          (c5model.y_grid_positions.getLast?.getD 0,
            c5model.envelope.eave_height)])
    ∧ (c5model.members.filter
          (fun m => m.member_type == MemberType.RIDGE_BEAM)
        = [makeMember MemberType.RIDGE_BEAM
            (Point3D.mk 0 (c5model.envelope.span / 2)
              c5model.envelope.ridge_height)
            (Point3D.mk c5model.envelope.length
              (c5model.envelope.span / 2) c5model.envelope.ridge_height)
            "RB" none]) :=
  C5_structural_invariants c5matching none c5model c5_model_eval

/-! ### Claim C6: the concrete 15000 × 18000 building -/

/-- Matching result with span 15000, eave 5000, ridge 7500, pitch 6000,
3 bays and no direct length. -/
def c6matching : MatchingResult :=
  MatchingResult.mk ViewType.UNKNOWN [] [] [] [] (some 15000) none
    (some 6000) (some 3) (some 5000) (some 7500)

theorem pyRoundR_intCast (n : ℤ) : pyRoundR ((n : ℤ) : ℝ) = n := by
  unfold pyRoundR
  rw [Int.fract_intCast, if_neg (by norm_num)]
  exact round_intCast n

/-- C6 (confirmed): the concrete reconstruction has 4 frames, 8 columns,
8 rafters, one ridge beam of 3D length 18000, 24 purlins, and envelope
18000 × 15000 with eave 5000 and ridge 7500 (length defaulted to
pitch·bay_count). -/
theorem C6_concrete_reconstruction :
    ((reconstruct_3d c6matching none).map StructuralModel.frame_count
        = some 4)
    ∧ ((reconstruct_3d c6matching none).map StructuralModel.bay_count
        = some 3)
    ∧ ((reconstruct_3d c6matching none).map (fun sm =>
        (sm.members.filter
          (fun m => m.member_type == MemberType.COLUMN)).length) = some 8)
    ∧ ((reconstruct_3d c6matching none).map (fun sm =>
        (sm.members.filter
          (fun m => m.member_type == MemberType.RAFTER)).length) = some 8)
    ∧ ((reconstruct_3d c6matching none).map (fun sm =>
        (sm.members.filter
          (fun m => m.member_type == MemberType.RIDGE_BEAM)).length)
        = some 1)
    ∧ ((reconstruct_3d c6matching none).map (fun sm =>
        (sm.members.filter
          (fun m => m.member_type == MemberType.PURLIN)).length) = some 24)
    ∧ ((reconstruct_3d c6matching none).map StructuralModel.envelope
        = some (BuildingEnvelope.mk 18000 15000 5000 7500))
    ∧ ((reconstruct_3d c6matching none).map (fun sm =>
        (sm.members.filter
          (fun m => m.member_type == MemberType.RIDGE_BEAM)).map
            Member3D.length) = some [18000]) := by
  refine ⟨rfl, rfl, rfl, rfl, rfl, rfl, ?_, ?_⟩
  · have h : (reconstruct_3d c6matching none).map StructuralModel.envelope
        = some (BuildingEnvelope.mk (6000 * ((3 : ℤ) : ℚ)) 15000 5000
          7500) := rfl
    rw [h]
    norm_num [BuildingEnvelope.mk.injEq]
  · have h : (reconstruct_3d c6matching none).map (fun sm =>
        (sm.members.filter
          (fun m => m.member_type == MemberType.RIDGE_BEAM)).map
            Member3D.length)
        = some [pyRound1R (Real.sqrt ((length3dSq
            (Point3D.mk 0 (15000 / 2) 7500)
            (Point3D.mk (6000 * ((3 : ℤ) : ℚ)) (15000 / 2) 7500) : ℚ) :
              ℝ))] := rfl
    rw [h]
    have hsq : (length3dSq (Point3D.mk 0 (15000 / 2) 7500)
        (Point3D.mk (6000 * ((3 : ℤ) : ℚ)) (15000 / 2) 7500) : ℚ)
        = 324000000 := by
      norm_num [length3dSq]
    rw [hsq]
    have hs : Real.sqrt ((324000000 : ℚ) : ℝ) = 18000 := by
      rw [show ((324000000 : ℚ) : ℝ) = (18000 : ℝ) ^ 2 by norm_num]
      exact Real.sqrt_sq (by norm_num)
    rw [hs]
    have hr : pyRound1R (18000 : ℝ) = 18000 := by
      unfold pyRound1R
      rw [show (10 : ℝ) * 18000 = ((180000 : ℤ) : ℝ) by norm_num,
        pyRoundR_intCast]
      norm_num
    rw [hr]

/-! ## Component: 小屋伏図 structural-line counting (src/drawing/koyafuse.py)
and length assignment (src/drawing/analyzer.py)

Geometry (tips, lines, positions) lives in ℝ because of `atan2`/`hypot`;
`unit_length`/`total_length` always come from the rational matching values,
so they stay in ℚ.  `atan2` is only ever applied to absolute values, so the
embedding covers the first quadrant: `atan2nn y x` with `x, y ≥ 0`. -/

structure KLine where
  x1 : ℝ
  y1 : ℝ
  x2 : ℝ
  y2 : ℝ
  length : ℝ
  width : ℝ

structure LeaderTip where
  x : ℝ
  y : ℝ
  length : ℝ

structure DetectedMember where
  member_number : String
  modifier : String
  label : String
  label_x : ℝ
  label_y : ℝ
  leader_tips : List LeaderTip
  tip_count : ℕ
  line_count : ℕ
  line_positions : List (List ℝ)
  orientation : String
  unit_length : Option ℚ
  total_length : Option ℚ

/-- The `drawing_bbox` dict `{x0, y0, x1, y1}`. -/
structure KBBox where
  x0 : ℝ
  y0 : ℝ
  x1 : ℝ
  y1 : ℝ

/-- `math.atan2 y x` restricted to the nonnegative arguments used by the
source (`atan2(abs(..), abs(..))`); `atan2(0, 0) = 0`. -/
noncomputable def atan2nn (y x : ℝ) : ℝ :=
  if x = 0 then (if y = 0 then 0 else Real.pi / 2) else Real.arctan (y / x)

/-- `math.degrees`. -/
noncomputable def degrees (r : ℝ) : ℝ := r * 180 / Real.pi

/-- `math.hypot`. -/
noncomputable def rHypot (a b : ℝ) : ℝ := Real.sqrt (a * a + b * b)

/-- koyafuse.py `_point_to_segment_dist` (lines 534-546). -/
noncomputable def pointSegDist (px py x1 y1 x2 y2 : ℝ) : ℝ :=
  let dx := x2 - x1
  let dy := y2 - y1
  let len_sq := dx * dx + dy * dy
  if len_sq < 1 / 1000000000 then rHypot (px - x1) (py - y1)
  else
    let t := max 0 (min 1 (((px - x1) * dx + (py - y1) * dy) / len_sq))
    rHypot (px - (x1 + t * dx)) (py - (y1 + t * dy))

/-- The vertical-structural-line scan of `_count_structural_lines`
(koyafuse.py lines 283-300); the bbox margins (±5 in x, ±20 in y) are
folded in. -/
noncomputable def vertLinesOf (lines : List KLine) (bb : KBBox) :
    List (ℝ × ℝ × ℝ) :=
  lines.filterMap (fun l =>
    if |l.width - 42 / 100| > 5 / 100 ∨ l.length < 150 then none
    else if degrees (atan2nn |l.y2 - l.y1| |l.x2 - l.x1|) < 80 then none
    else
      let cx := (l.x1 + l.x2) / 2
      let cy := (l.y1 + l.y2) / 2
      if bb.x0 - 5 ≤ cx ∧ cx ≤ bb.x1 + 5 ∧ bb.y0 - 20 ≤ cy ∧ cy ≤ bb.y1 + 20
      then some (cx, cy, l.length)
      else none)

/-- Python tuple comparison on `(x, y, len)` triples for `list.sort()`. -/
noncomputable def tripleLe (a b : ℝ × ℝ × ℝ) : Bool :=
  decide (a.1 < b.1 ∨ (a.1 = b.1 ∧
    (a.2.1 < b.2.1 ∨ (a.2.1 = b.2.1 ∧ a.2.2 ≤ b.2.2))))

/-- The merge-within-5pts clustering loop (koyafuse.py lines 304-310), with
the accumulator reversed. -/
noncomputable def clusterVert :
    List (ℝ × ℝ × ℝ) → List (ℝ × ℝ × ℝ) → List (ℝ × ℝ × ℝ)
  | acc, [] => acc.reverse
  | [], v :: rest => clusterVert [v] rest
  | p :: accRest, v :: rest =>
    if |v.1 - p.1| ≤ 5 then
      clusterVert ((p.1, (p.2.1 + v.2.1) / 2, max p.2.2 v.2.2) :: accRest)
        rest
    else clusterVert (v :: p :: accRest) rest

/-- The nearest-structural-line search (koyafuse.py lines 319-333):
`ref_len` starts at 0, `best_dist` at infinity (modelled `none`). -/
noncomputable def bestRefLen (tip : LeaderTip) (lines : List KLine) : ℝ :=
  (lines.foldl (fun acc l =>
    if |l.width - 42 / 100| > 5 / 100 ∨ l.length < 150 then acc
    else if degrees (atan2nn |l.y2 - l.y1| |l.x2 - l.x1|) < 80 then acc
    else
      let d := pointSegDist tip.x tip.y l.x1 l.y1 l.x2 l.y2
      match acc.2 with
      | none => (l.length, some d)
      | some bd => if d < bd then (l.length, some d) else acc)
    ((0 : ℝ), (none : Option ℝ))).1

/-- The per-member branch of `_count_structural_lines` (koyafuse.py lines
312-349). -/
noncomputable def countOne (vert_positions : List (ℝ × ℝ × ℝ))
    (lines : List KLine) (m : DetectedMember) : DetectedMember :=
  if m.orientation == "x" then
    { m with line_count := m.tip_count,
             line_positions := m.leader_tips.map (fun t => [t.x, t.y]) }
  else
    match m.orientation == "y", m.leader_tips with
    | true, tip :: _ =>
      let ref_len := bestRefLen tip lines
      if ref_len > 0 then
        let matched := vert_positions.filter (fun v =>
          decide (|v.2.2 - ref_len| ≤ ref_len * (5 / 100)))
        { m with line_count := matched.length,
                 line_positions := matched.map (fun v => [v.1, v.2.1]) }
      else
        { m with line_count := m.tip_count,
                 line_positions := m.leader_tips.map (fun t => [t.x, t.y]) }
    | _, _ =>
      { m with line_count := m.tip_count,
               line_positions := m.leader_tips.map (fun t => [t.x, t.y]) }

/-- koyafuse.py `_count_structural_lines` (lines 267-349). -/
noncomputable def countStructuralLines (detected : List DetectedMember)
    (lines : List KLine) (bb : Option KBBox) : List DetectedMember :=
  match bb with
  | none => detected.map (fun m => { m with line_count := m.tip_count })
  | some b =>
    let vert_positions := clusterVert [] (sSort tripleLe (vertLinesOf lines b))
    detected.map (countOne vert_positions lines)

/-- analyzer.py `_assign_lengths_and_weights` length part (lines 52-59) for
one member. -/
def assignLengthOne (matching : MatchingResult) (m : DetectedMember) :
    DetectedMember :=
  let unit :=
    if m.orientation == "x" && optTruthy matching.length then matching.length
    else if m.orientation == "y" && optTruthy matching.span then matching.span
    else m.unit_length
  let total :=
    if optTruthy unit && m.line_count != 0 then
      unit.map (fun u => (m.line_count : ℚ) * u)
    else m.total_length
  { m with unit_length := unit, total_length := total }

/-- analyzer.py `_assign_lengths_and_weights` length loop over the member
list; `if matching:` guards the whole loop. -/
def assignLengths (matching : Option MatchingResult)
    (members : List DetectedMember) : List DetectedMember :=
  match matching with
  | none => members
  | some mg => members.map (assignLengthOne mg)

/-- Every output member of `_count_structural_lines` comes from an input
member with tips, unit/total lengths and orientation unchanged, and its
line count either equals the input tip count or comes from the y-direction
vertical-position matching (which needs a bbox and a nonempty tip list). -/
theorem mem_countStructuralLines (dets : List DetectedMember)
    (lines : List KLine) (bb : Option KBBox) (m0 : DetectedMember)
    (h : m0 ∈ countStructuralLines dets lines bb) :
    ∃ m ∈ dets,
      m0.tip_count = m.tip_count ∧ m0.leader_tips = m.leader_tips ∧
      m0.unit_length = m.unit_length ∧ m0.total_length = m.total_length ∧
      m0.orientation = m.orientation ∧
      (m0.line_count = m.tip_count ∨
        (m.orientation = "y" ∧ bb ≠ none ∧ m.leader_tips ≠ [])) := by
  cases bb with
  | none =>
    simp only [countStructuralLines] at h
    obtain ⟨m, hm, rfl⟩ := List.mem_map.mp h
    exact ⟨m, hm, rfl, rfl, rfl, rfl, rfl, Or.inl rfl⟩
  | some b =>
    simp only [countStructuralLines] at h
    obtain ⟨m, hm, rfl⟩ := List.mem_map.mp h
    refine ⟨m, hm, ?_⟩
    by_cases hx : (m.orientation == "x") = true
    · rw [countOne, if_pos hx]
      exact ⟨rfl, rfl, rfl, rfl, rfl, Or.inl rfl⟩
    · rw [countOne, if_neg hx]
      cases hy : (m.orientation == "y") with
      | false =>
        cases htips : m.leader_tips with
        | nil => exact ⟨rfl, rfl, rfl, rfl, rfl, Or.inl rfl⟩
        | cons tip rest => exact ⟨rfl, rfl, rfl, rfl, rfl, Or.inl rfl⟩
      | true =>
        cases htips : m.leader_tips with
        | nil => exact ⟨rfl, rfl, rfl, rfl, rfl, Or.inl rfl⟩
        | cons tip rest =>
          dsimp only
          by_cases href : bestRefLen tip lines > 0
          · rw [if_pos href]
            refine ⟨rfl, rfl, rfl, rfl, rfl, Or.inr ?_⟩
            exact ⟨beq_iff_eq.mp hy, by simp, by simp⟩
          · rw [if_neg href]
            exact ⟨rfl, rfl, rfl, rfl, rfl, Or.inl rfl⟩

/-- Behaviour of the length-assignment step on one member whose
`total_length` starts unset: tips, line count and orientation are
untouched, and `total_length` is set to `line_count * unit_length` exactly
when the assigned `unit_length` is truthy and `line_count` is nonzero. -/
theorem assignLengthOne_spec (mg : MatchingResult) (m0 : DetectedMember)
    (htot : m0.total_length = none) :
    (assignLengthOne mg m0).tip_count = m0.tip_count ∧
    (assignLengthOne mg m0).line_count = m0.line_count ∧
    (assignLengthOne mg m0).orientation = m0.orientation ∧
    (assignLengthOne mg m0).leader_tips = m0.leader_tips ∧
    ((optTruthy (assignLengthOne mg m0).unit_length &&
        (assignLengthOne mg m0).line_count != 0) = true →
      (assignLengthOne mg m0).total_length
        = (assignLengthOne mg m0).unit_length.map
            (fun u => ((assignLengthOne mg m0).line_count : ℚ) * u)) ∧
    ((optTruthy (assignLengthOne mg m0).unit_length &&
        (assignLengthOne mg m0).line_count != 0) = false →
      (assignLengthOne mg m0).total_length = none) := by
  simp only [assignLengthOne]
  set u := (if m0.orientation == "x" && optTruthy mg.length then mg.length
    else if m0.orientation == "y" && optTruthy mg.span then mg.span
    else m0.unit_length) with hu
  refine ⟨trivial, trivial, trivial, trivial, ?_, ?_⟩
  · intro hc
    have hc2 : (optTruthy u && (m0.line_count != 0)) = true := hc
    rw [if_pos hc2]
  · intro hc
    have hc2 : (optTruthy u && (m0.line_count != 0)) = false := hc
    rw [if_neg (by simp [hc2])]
    exact htot

/-- C4 (corrected).  After structural-line counting and length assignment
on members whose tip counts match their tip lists and whose lengths start
unset: a member with no tips gets line_count 0 and no total length; a
member with tips keeps a nonzero line count UNLESS it is a y-orientation
member counted against the bbox vertical clusters (which may come up
empty — the spec's dichotomy fails there); and total_length is set iff the
assigned unit_length is truthy and line_count is nonzero, in which case it
equals line_count · unit_length. -/
theorem C4_tipcount_linecount (dets : List DetectedMember)
    (lines : List KLine) (bb : Option KBBox) (mg : MatchingResult)
    (hin : ∀ m ∈ dets, m.tip_count = m.leader_tips.length ∧
      m.unit_length = none ∧ m.total_length = none) :
    ∀ m' ∈ assignLengths (some mg) (countStructuralLines dets lines bb),
      (m'.tip_count = 0 → m'.line_count = 0 ∧ m'.total_length = none)
      ∧ (m'.tip_count ≠ 0 → m'.line_count ≠ 0 ∨
          (m'.orientation = "y" ∧ bb ≠ none))
      ∧ (m'.total_length = none ∨
          (m'.line_count ≠ 0 ∧ m'.total_length
            = m'.unit_length.map (fun u => (m'.line_count : ℚ) * u)))
      ∧ ((optTruthy m'.unit_length = true ∧ m'.line_count ≠ 0) →
          m'.total_length
            = m'.unit_length.map (fun u => (m'.line_count : ℚ) * u)) := by
  intro m' hm'
  simp only [assignLengths] at hm'
  obtain ⟨m0, hm0, rfl⟩ := List.mem_map.mp hm'
  obtain ⟨m, hm, htc, htp, hu, ht, ho, hlc⟩ :=
    mem_countStructuralLines dets lines bb m0 hm0
  obtain ⟨hintc, hinu, hint⟩ := hin m hm
  have htot0 : m0.total_length = none := ht.trans hint
  obtain ⟨s1, s2, s3, s4, s5, s6⟩ := assignLengthOne_spec mg m0 htot0
  refine ⟨?_, ?_, ?_, ?_⟩
  · intro h0
    rw [s1, htc] at h0
    have htips_nil : m.leader_tips = [] := by
      rw [h0] at hintc
      exact List.length_eq_zero.mp hintc.symm
    have hlc0 : m0.line_count = 0 := by
      rcases hlc with hlc | ⟨-, -, hne⟩
      · rw [hlc, ← h0]
      · exact absurd htips_nil hne
    refine ⟨by rw [s2, hlc0], ?_⟩
    apply s6
    rw [s2, hlc0]
    simp
  · intro h0
    rw [s1, htc] at h0
    rcases hlc with hlc | ⟨hoy, hbb, -⟩
    · exact Or.inl (by rw [s2, hlc]; exact h0)
    · exact Or.inr ⟨by rw [s3, ho, hoy], hbb⟩
  · by_cases hc : (optTruthy (assignLengthOne mg m0).unit_length &&
        (assignLengthOne mg m0).line_count != 0) = true
    · refine Or.inr ⟨?_, s5 hc⟩
      rw [Bool.and_eq_true] at hc
      simpa using hc.2
    · exact Or.inl (s6 (Bool.eq_false_iff.mpr hc))
  · intro ⟨hu1, hn1⟩
    apply s5
    rw [Bool.and_eq_true]
    exact ⟨hu1, by simpa using hn1⟩

/-- A y-orientation member with one leader tip at (100, 100). -/
noncomputable def c4tip : LeaderTip := LeaderTip.mk 100 100 30

noncomputable def c4member : DetectedMember :=
  DetectedMember.mk "1" "" "1" 100 100 [c4tip] 1 0 [] "y" none none

/-- One vertical structural line (width 0.42, length 200) near the tip but
whose centre (100, 150) lies outside the drawing bbox. -/
noncomputable def c4line : KLine := KLine.mk 100 50 100 250 200 (42 / 100)

noncomputable def c4bb : KBBox := KBBox.mk 300 0 500 400

def c4mg : MatchingResult :=
  MatchingResult.mk ViewType.UNKNOWN [] [] [] [] (some 15000) none none none
    none none

/-- The post-processed member: one tip, zero lines, span assigned as unit
length, no total. -/
noncomputable def c4out : DetectedMember :=
  DetectedMember.mk "1" "" "1" 100 100 [c4tip] 1 0 [] "y" (some 15000) none

theorem c4_angle_eval :
    degrees (atan2nn |(250 : ℝ) - 50| |(100 : ℝ) - 100|) = 90 := by
  have h1 : |(250 : ℝ) - 50| = 200 := by norm_num
  have h2 : |(100 : ℝ) - 100| = 0 := by norm_num
  rw [h1, h2, atan2nn, if_pos rfl, if_neg (by norm_num), degrees]
  field_simp
  ring

theorem c4_vert_eval : vertLinesOf [c4line] c4bb = [] := by
  simp only [vertLinesOf, c4line, c4bb, List.filterMap_cons,
    List.filterMap_nil, c4_angle_eval]
  norm_num

theorem c4_ref_eval : bestRefLen c4tip [c4line] = 200 := by
  simp only [bestRefLen, c4tip, c4line, List.foldl, c4_angle_eval]
  norm_num

theorem c4_count_eval :
    countStructuralLines [c4member] [c4line] (some c4bb) = [c4member] := by
  have hvp : clusterVert []
      (sSort tripleLe (vertLinesOf [c4line] c4bb)) = [] := by
    rw [c4_vert_eval]
    rfl
  simp only [countStructuralLines, List.map_cons, List.map_nil, countOne,
    c4member, hvp, c4_ref_eval]
  norm_num [c4_ref_eval]
  decide

/-- C4 counterexample: the claimed dichotomy fails — the y-orientation
member has tip_count 1 yet line_count 0 (its reference length 200 is
positive but no vertical cluster inside the bbox matches), its unit length
is set to the span, and total_length stays unset rather than equalling
line_count · unit_length. -/
theorem C4_counterexample :
    assignLengths (some c4mg)
        (countStructuralLines [c4member] [c4line] (some c4bb)) = [c4out]
    ∧ c4out.tip_count = 1 ∧ c4out.line_count = 0
    ∧ c4out.unit_length = some 15000 ∧ c4out.total_length = none := by
  refine ⟨?_, rfl, rfl, rfl, rfl⟩
  rw [c4_count_eval]
  simp only [assignLengths, List.map_cons, List.map_nil, assignLengthOne,
    c4member, c4mg, c4out, optTruthy]
  norm_num

/-- An x-orientation member with two tips, counted without a bbox. -/
noncomputable def c4xmember : DetectedMember :=
  DetectedMember.mk "2" "" "2" 0 0 [LeaderTip.mk 1 1 5, LeaderTip.mk 2 2 5]
    2 0 [] "x" none none

def c4mgx : MatchingResult :=
  MatchingResult.mk ViewType.UNKNOWN [] [] [] [] none (some 18000) none none
    none none

noncomputable def c4xout : DetectedMember :=
  DetectedMember.mk "2" "" "2" 0 0 [LeaderTip.mk 1 1 5, LeaderTip.mk 2 2 5]
    2 2 [] "x" (some 18000) (some 36000)

theorem c4x_eval :
    assignLengths (some c4mgx)
        (countStructuralLines [c4xmember] [] none) = [c4xout] := by
  simp only [countStructuralLines, List.map_cons, List.map_nil,
    assignLengths, assignLengthOne, c4xmember, c4mgx, c4xout, optTruthy]
  norm_num

/-- C4 witness: the amended conclusions hold at the concrete x-orientation
member, whose total length is line_count · unit_length. -/
theorem C4_witness :
    (c4xout.tip_count = 0 → c4xout.line_count = 0 ∧
      c4xout.total_length = none)
    ∧ (c4xout.tip_count ≠ 0 → c4xout.line_count ≠ 0 ∨
        (c4xout.orientation = "y" ∧ (none : Option KBBox) ≠ none))
    ∧ (c4xout.total_length = none ∨
        (c4xout.line_count ≠ 0 ∧ c4xout.total_length
          = c4xout.unit_length.map (fun u => (c4xout.line_count : ℚ) * u)))
    ∧ ((optTruthy c4xout.unit_length = true ∧ c4xout.line_count ≠ 0) →
        c4xout.total_length
          = c4xout.unit_length.map (fun u => (c4xout.line_count : ℚ) * u)) :=
  C4_tipcount_linecount [c4xmember] [] none c4mgx
    (by
      intro m hm
      rw [List.mem_singleton.mp hm]
      exact ⟨rfl, rfl, rfl⟩)
    c4xout
    (by rw [c4x_eval]; exact List.mem_singleton_self _)

/-! ## Component K: steel catalog (src/drawing/steel_sections.py)

Regex searches are embedded as character scanners: `re.search` tries every
start position left to right; a matched float literal `\d+\.?\d*` is kept
as digit data `(int part, fraction, fraction length)` — `float()` of the
matched text is `numToQ`.  Digit classes cover the half- and full-width
digits of `digitVal`.  Areas and weights use π and cos, hence ℝ; the
display-only `notation` strings (float formatting) are omitted. -/

inductive SectionShape where
  | PIPE
  | SQUARE_TUBE
  | RECT_TUBE
  | ANGLE
  | ROUND_BAR
  | FLAT_BAR
deriving DecidableEq, Repr

structure SteelSection where
  shape : SectionShape
  D : Option ℚ
  H : Option ℚ
  t : Option ℚ
  area : ℝ
  unit_weight : ℝ

structure LatticeTrussSpec where
  chord : SteelSection
  chord_count : ℕ
  lattice : SteelSection
  depth : ℚ
  angle_deg : ℚ
  chord_weight_per_m : ℝ
  lattice_weight_per_m : ℝ
  total_weight_per_m : ℝ

structure MemberEntry where
  number : String
  name : String
  name_en : String
  section_text : String
  material : String
  sections : List SteelSection
  truss : Option LatticeTrussSpec
  unit_weight : ℝ

/-- A matched numeric literal: integer part, fraction digits value,
fraction digit count. -/
def numToQ (v : ℕ × ℕ × ℕ) : ℚ := (v.1 : ℚ) + (v.2.1 : ℚ) / 10 ^ v.2.2

/-- `math.radians`. -/
noncomputable def radians (deg : ℚ) : ℝ := (deg : ℝ) * Real.pi / 180

/-- `STEEL_DENSITY = 7.85e-3`. -/
noncomputable def pipe_area (D t : ℚ) : ℝ := Real.pi * ((D : ℝ) - t) * t

noncomputable def tube_area (B H t : ℚ) : ℝ :=
  2 * ((B : ℝ) + H - 2 * t) * t

noncomputable def angle_area (a b t : ℚ) : ℝ := ((a : ℝ) + b - t) * t

noncomputable def round_bar_area (d : ℚ) : ℝ := Real.pi * d * d / 4

noncomputable def flat_bar_area (b t : ℚ) : ℝ := (b : ℝ) * t

/-- steel_sections.py `to_kg_m`: `round(area * 7.85e-3, 3)`. -/
noncomputable def to_kg_m (area : ℝ) : ℝ := pyRound3R (area * (785 / 100000))

/-- Greedy digit run of the regex `\d+` / `\d*`, as (value, count, rest). -/
def takeDigits : List Char → ℕ × ℕ × List Char
  | [] => (0, 0, [])
  | c :: rest =>
    match digitVal c with
    | some d =>
      let r := takeDigits rest
      (d * 10 ^ r.2.1 + r.1, r.2.1 + 1, r.2.2)
    | none => (0, 0, c :: rest)

/-- The float literal `\d+\.?\d*`: at least one digit, an optional dot,
then more digits. -/
def matchNum (cs : List Char) : Option ((ℕ × ℕ × ℕ) × List Char) :=
  let r := takeDigits cs
  if r.2.1 = 0 then none
  else
    match r.2.2 with
    | '.' :: r2 =>
      let f := takeDigits r2
      some ((r.1, f.1, f.2.1), f.2.2)
    | rest => some ((r.1, 0, 0), rest)

/-- `[-−–]` (`_DASH`). -/
def isDashC (c : Char) : Bool := c = '-' || c = '−' || c = '–'

/-- `[φΦøɸ]` (`_PHI`). -/
def isPhiC (c : Char) : Bool := c = 'φ' || c = 'Φ' || c = 'ø' || c = 'ɸ'

/-- `[×xX]` (`_SEP`). -/
def isSepC (c : Char) : Bool := c = '×' || c = 'x' || c = 'X'

/-- After `Ps?` of the pipe pattern: `-(\d+\.?\d*)φ×(\d+\.?\d*)t`. -/
def pipeTail (r : List Char) : Option ((ℕ × ℕ × ℕ) × (ℕ × ℕ × ℕ)) :=
  match r with
  | c :: r2 =>
    if isDashC c then
      match matchNum r2 with
      | some (dv, p :: r4) =>
        if isPhiC p then
          match r4 with
          | s :: r5 =>
            if isSepC s then
              match matchNum r5 with
              | some (tv, 't' :: _) => some (dv, tv)
              | _ => none
            else none
          | [] => none
        else none
      | _ => none
    else none
  | [] => none

/-- One attempt of the pipe pattern `Ps?-(\d+\.?\d*)φ×(\d+\.?\d*)t` at the
head position; the greedy `s?` tries with `s` first. -/
def pipeAt : List Char → Option ((ℕ × ℕ × ℕ) × (ℕ × ℕ × ℕ))
  | 'P' :: rest =>
    (match rest with
     | 's' :: r2 =>
       match pipeTail r2 with
       | some v => some v
       | none => pipeTail rest
     | _ => pipeTail rest)
  | _ => none

/-- `re.search` of the pipe pattern: first matching start position. -/
def searchPipe : List Char → Option ((ℕ × ℕ × ℕ) × (ℕ × ℕ × ℕ))
  | [] => none
  | c :: rest =>
    match pipeAt (c :: rest) with
    | some v => some v
    | none => searchPipe rest

/-- After the lead of tube/angle: `-(n)×(n)×(n)t`. -/
def tripleTail (r : List Char) : Option ((ℕ × ℕ × ℕ) × (ℕ × ℕ × ℕ) × (ℕ × ℕ × ℕ)) :=
  match r with
  | c :: r2 =>
    if isDashC c then
      match matchNum r2 with
      | some (bv, s1 :: r3) =>
        if isSepC s1 then
          match matchNum r3 with
          | some (hv, s2 :: r4) =>
            if isSepC s2 then
              match matchNum r4 with
              | some (tv, 't' :: _) => some (bv, hv, tv)
              | _ => none
            else none
          | _ => none
        else none
      | _ => none
    else none
  | [] => none

def tubeAt : List Char → Option ((ℕ × ℕ × ℕ) × (ℕ × ℕ × ℕ) × (ℕ × ℕ × ℕ))
  | '□' :: rest => tripleTail rest
  | _ => none

def searchTube : List Char → Option ((ℕ × ℕ × ℕ) × (ℕ × ℕ × ℕ) × (ℕ × ℕ × ℕ))
  | [] => none
  | c :: rest =>
    match tubeAt (c :: rest) with
    | some v => some v
    | none => searchTube rest

def angleAt : List Char → Option ((ℕ × ℕ × ℕ) × (ℕ × ℕ × ℕ) × (ℕ × ℕ × ℕ))
  | 'L' :: rest => tripleTail rest
  | _ => none

def searchAngle : List Char → Option ((ℕ × ℕ × ℕ) × (ℕ × ℕ × ℕ) × (ℕ × ℕ × ℕ))
  | [] => none
  | c :: rest =>
    match angleAt (c :: rest) with
    | some v => some v
    | none => searchAngle rest

/-- After `FB`: `-(n)×(n)t?` (the trailing `t` is optional). -/
def flatTail (r : List Char) : Option ((ℕ × ℕ × ℕ) × (ℕ × ℕ × ℕ)) :=
  match r with
  | c :: r2 =>
    if isDashC c then
      match matchNum r2 with
      | some (bv, s1 :: r3) =>
        if isSepC s1 then
          match matchNum r3 with
          | some (tv, _) => some (bv, tv)
          | none => none
        else none
      | _ => none
    else none
  | [] => none

def flatAt : List Char → Option ((ℕ × ℕ × ℕ) × (ℕ × ℕ × ℕ))
  | 'F' :: 'B' :: rest => flatTail rest
  | _ => none

def searchFlat : List Char → Option ((ℕ × ℕ × ℕ) × (ℕ × ℕ × ℕ))
  | [] => none
  | c :: rest =>
    match flatAt (c :: rest) with
    | some v => some v
    | none => searchFlat rest

def roundBarAt : List Char → Option (ℕ × ℕ × ℕ)
  | 'M' :: rest => (matchNum rest).map Prod.fst
  | _ => none

def searchRoundBar : List Char → Option (ℕ × ℕ × ℕ)
  | [] => none
  | c :: rest =>
    match roundBarAt (c :: rest) with
    | some v => some v
    | none => searchRoundBar rest

noncomputable def mkPipeSection (D t : ℚ) : SteelSection :=
  SteelSection.mk SectionShape.PIPE (some D) none (some t)
    (pyRound1R (pipe_area D t)) (to_kg_m (pipe_area D t))

noncomputable def mkTubeSection (B H t : ℚ) : SteelSection :=
  SteelSection.mk
    (if B = H then SectionShape.SQUARE_TUBE else SectionShape.RECT_TUBE)
    (some B) (some H) (some t) (pyRound1R (tube_area B H t))
    (to_kg_m (tube_area B H t))

noncomputable def mkAngleSection (a b t : ℚ) : SteelSection :=
  SteelSection.mk SectionShape.ANGLE (some a) (some b) (some t)
    (pyRound1R (angle_area a b t)) (to_kg_m (angle_area a b t))

noncomputable def mkRoundBarSection (d : ℚ) : SteelSection :=
  SteelSection.mk SectionShape.ROUND_BAR (some d) none none
    (pyRound1R (round_bar_area d)) (to_kg_m (round_bar_area d))

noncomputable def mkFlatBarSection (b t : ℚ) : SteelSection :=
  SteelSection.mk SectionShape.FLAT_BAR (some b) none (some t)
    (pyRound1R (flat_bar_area b t)) (to_kg_m (flat_bar_area b t))

/-- steel_sections.py `parse_section` (lines 135-148): strip, then try
pipe, tube, angle, flat bar, round bar in order; the round bar rejects
diameters above 64. -/
noncomputable def parse_section (text : String) : Option SteelSection :=
  let cs := (pyStrip text).toList
  match searchPipe cs with
  | some (d, t) => some (mkPipeSection (numToQ d) (numToQ t))
  | none =>
    match searchTube cs with
    | some (b, h, t) => some (mkTubeSection (numToQ b) (numToQ h) (numToQ t))
    | none =>
      match searchAngle cs with
      | some (a, b, t) =>
        some (mkAngleSection (numToQ a) (numToQ b) (numToQ t))
      | none =>
        match searchFlat cs with
        | some (b, t) => some (mkFlatBarSection (numToQ b) (numToQ t))
        | none =>
          match searchRoundBar cs with
          | some d =>
            if numToQ d > 64 then none
            else some (mkRoundBarSection (numToQ d))
          | none => none

/-- `str.strip()` on a character list. -/
def stripChars (cs : List Char) : List Char :=
  ((cs.dropWhile isPySpace).reverse.dropWhile isPySpace).reverse

/-- steel_sections.py `_extract_count` (lines 430-434) on an
already-stripped part: drop one leading 上/下/角/内/外, then the leading
digit run, defaulting to 1. -/
def extract_count (p : List Char) : ℕ :=
  let p1 := match p with
    | c :: rest =>
      if c = '上' ∨ c = '下' ∨ c = '角' ∨ c = '内' ∨ c = '外' then rest
      else c :: rest
    | [] => []
  let r := takeDigits p1
  if r.2.1 = 0 then 1 else r.1

/-- `re.split(r"[,，]\s*", ...)`: split on the comma characters. -/
def splitCommaRaw : List Char → List (List Char)
  | [] => [[]]
  | c :: rest =>
    if c = ',' ∨ c = '，' then [] :: splitCommaRaw rest
    else
      match splitCommaRaw rest with
      | part :: parts => (c :: part) :: parts
      | [] => [[c]]

/-- ... and absorb the `\s*` after each comma. -/
def splitComma (cs : List Char) : List (List Char) :=
  match splitCommaRaw cs with
  | [] => []
  | p :: ps => p :: ps.map (fun q => q.dropWhile isPySpace)

/-- `text.split(pat)` restricted to its first two fields: the part before
the first occurrence of `pat` and the part after it. -/
def breakOn (pat : List Char) : List Char → Option (List Char × List Char)
  | [] => none
  | c :: rest =>
    if pat.isPrefixOf (c :: rest) then some ([], (c :: rest).drop pat.length)
    else
      match breakOn pat rest with
      | some (b, a) => some (c :: b, a)
      | none => none

/-- One attempt of `D[=＝](\d+\.?\d*)(?:[,，](\d+\.?\d*))?`. -/
def depthAt : List Char → Option ((ℕ × ℕ × ℕ) × Option (ℕ × ℕ × ℕ))
  | 'D' :: e :: r2 =>
    if e = '=' ∨ e = '＝' then
      match matchNum r2 with
      | some (d1, c :: r4) =>
        if c = ',' ∨ c = '，' then
          match matchNum r4 with
          | some (d2, _) => some (d1, some d2)
          | none => some (d1, none)
        else some (d1, none)
      | some (d1, []) => some (d1, none)
      | none => none
    else none
  | _ => none

def searchDepth : List Char → Option ((ℕ × ℕ × ℕ) × Option (ℕ × ℕ × ℕ))
  | [] => none
  | c :: rest =>
    match depthAt (c :: rest) with
    | some v => some v
    | none => searchDepth rest

/-- One attempt of `[θΘ][=＝](\d+\.?\d*)`. -/
def thetaAt : List Char → Option (ℕ × ℕ × ℕ)
  | c :: e :: r2 =>
    if (c = 'θ' ∨ c = 'Θ') ∧ (e = '=' ∨ e = '＝') then
      (matchNum r2).map Prod.fst
    else none
  | _ => none

def searchTheta : List Char → Option (ℕ × ℕ × ℕ)
  | [] => none
  | c :: rest =>
    match thetaAt (c :: rest) with
    | some v => some v
    | none => searchTheta rest

/-- `re.match(r"^D[=＝]", part)`. -/
def startsWithDepth : List Char → Bool
  | 'D' :: e :: _ => e = '=' || e = '＝'
  | _ => false

/-- The chord collection of `_parse_lattice_entry` (steel_sections.py
lines 344-360): parse every non-empty, non-`D=` comma part of the text
before ラチス, and double a single chord of count 1. -/
noncomputable def latticeChords (chord_text : List Char) :
    List (ℕ × SteelSection) :=
  let base := (splitComma chord_text).foldr (fun part acc =>
    let p := stripChars part
    if p = [] ∨ startsWithDepth p then acc
    else
      match parse_section (String.mk p) with
      | some sec => (extract_count p, sec) :: acc
      | none => acc) []
  match base with
  | [(1, s)] => [(2, s)]
  | l => l

/-- `max(chords, key=lambda cs: cs[1].area)` — first maximum wins. -/
noncomputable def latticePrimary :
    List (ℕ × SteelSection) → Option (ℕ × SteelSection)
  | [] => none
  | c :: rest =>
    some (rest.foldl (fun best x =>
      if x.2.area > best.2.area then x else best) c)

/-- The depth of `_parse_lattice_entry` (lines 363-369): `D=450` or the
average of a tapered `D=450,375`; 0 when absent. -/
def latticeDepth (cs : List Char) : ℚ :=
  let depths := match searchDepth cs with
    | none => ([] : List ℚ)
    | some (d1, none) => [numToQ d1]
    | some (d1, some d2) => [numToQ d1, numToQ d2]
  if depths.isEmpty then 0 else depths.sum / depths.length

/-- The angle of `_parse_lattice_entry` (lines 371-373): θ=…, default
45. -/
def latticeAngle (cs : List Char) : ℚ :=
  match searchTheta cs with
  | some a => numToQ a
  | none => 45

/-- steel_sections.py `_parse_lattice_entry` (lines 328-422), with the
ラチス split done by the caller. -/
noncomputable def parseLatticeEntry (number name section_text material
    name_en : String) (chord_text lattice_text : List Char) : MemberEntry :=
  let lattice := parse_section (String.mk lattice_text)
  let chords := latticeChords chord_text
  let total_chord_w : ℝ :=
    (chords.map (fun cp => (cp.1 : ℝ) * cp.2.unit_weight)).sum
  let depth := latticeDepth section_text.toList
  let angle := latticeAngle section_text.toList
  let all_sections := chords.map Prod.snd ++
    (match lattice with | some l => [l] | none => [])
  let primary_count := (chords.map Prod.fst).sum
  let fallbackW : ℝ := total_chord_w +
    (match lattice with | some l => l.unit_weight | none => 0)
  match latticePrimary chords, lattice with
  | some pc, some lat =>
    if depth > 0 then
      let lattice_w := lat.unit_weight / Real.cos (radians angle)
      let total_w := total_chord_w + lattice_w
      let truss := LatticeTrussSpec.mk pc.2 primary_count lat depth angle
        (pyRound3R total_chord_w) (pyRound3R lattice_w) (pyRound3R total_w)
      MemberEntry.mk number name name_en section_text material all_sections
        (some truss) truss.total_weight_per_m
    else
      MemberEntry.mk number name name_en section_text material all_sections
        none (pyRound3R fallbackW)
  | _, _ =>
    MemberEntry.mk number name name_en section_text material all_sections
      none (pyRound3R fallbackW)

/-- steel_sections.py `parse_member_entry` (lines 437-473): the lattice
branch if ラチス occurs, else the sum of the parsed comma parts. -/
noncomputable def parse_member_entry (number name section_text material
    name_en : String) : MemberEntry :=
  match breakOn "ラチス".toList section_text.toList with
  | some (chord_text, lattice_text) =>
    parseLatticeEntry number name section_text material name_en chord_text
      lattice_text
  | none =>
    let acc := (splitComma section_text.toList).foldl (fun acc part =>
      let p := stripChars part
      if p = [] then acc
      else
        match parse_section (String.mk p) with
        | some sec =>
          (acc.1 ++ [sec], acc.2 + sec.unit_weight * (extract_count p : ℝ))
        | none => acc) (([] : List SteelSection), (0 : ℝ))
    MemberEntry.mk number name name_en section_text material acc.1 none
      (pyRound3R acc.2)

/-! ### Claim C2: the lattice-truss row of the FIX-R-15 catalog -/

def c2row : String := "2Ps-42.7φ×2.3t, D=450, ラチスP-42.7φ×1.9t, θ=45°"

noncomputable def c2chordSec : SteelSection :=
  mkPipeSection (numToQ (42, 7, 1)) (numToQ (2, 3, 1))

noncomputable def c2latticeSec : SteelSection :=
  mkPipeSection (numToQ (42, 7, 1)) (numToQ (1, 9, 1))

noncomputable def c2entry : MemberEntry :=
  parse_member_entry "①" "主架構材" c2row "STK400" "main_frame"

theorem c2_break_eval :
    breakOn "ラチス".toList c2row.toList
      = some ("2Ps-42.7φ×2.3t, D=450, ".toList,
        "P-42.7φ×1.9t, θ=45°".toList) := rfl

theorem c2_chords_eval :
    latticeChords "2Ps-42.7φ×2.3t, D=450, ".toList = [(2, c2chordSec)] := rfl

theorem c2_lat_eval :
    parse_section (String.mk "P-42.7φ×1.9t, θ=45°".toList)
      = some c2latticeSec := rfl

theorem c2_depth_s :
    searchDepth c2row.toList = some ((450, 0, 0), none) := rfl

theorem c2_theta_s : searchTheta c2row.toList = some (45, 0, 0) := rfl

theorem c2_depth_val : latticeDepth c2row.toList = 450 := by
  simp only [latticeDepth, c2_depth_s]
  norm_num [numToQ]

theorem c2_angle_val : latticeAngle c2row.toList = 45 := by
  simp only [latticeAngle, c2_theta_s]
  norm_num [numToQ]

theorem sqrt2_gt : (1414213 / 1000000 : ℝ) < Real.sqrt 2 := by
  nlinarith [Real.sqrt_nonneg 2,
    Real.mul_self_sqrt (show (0:ℝ) ≤ 2 by norm_num)]

theorem sqrt2_lt : Real.sqrt 2 < 1414214 / 1000000 := by
  nlinarith [Real.sqrt_nonneg 2, Real.mul_self_sqrt (show (0:ℝ) ≤ 2 by norm_num)]

theorem c2_chord_uw : c2chordSec.unit_weight = 2292 / 1000 := by
  show to_kg_m (pipe_area (numToQ (42, 7, 1)) (numToQ (2, 3, 1)))
    = 2292 / 1000
  unfold to_kg_m pyRound3R
  have harg : (1000 : ℝ) *
      (pipe_area (numToQ (42, 7, 1)) (numToQ (2, 3, 1)) * (785 / 100000))
      = Real.pi * (729422 / 1000) := by
    unfold pipe_area numToQ
    push_cast
    ring
  rw [harg]
  have h1 : pyRoundR (Real.pi * (729422 / 1000)) = 2292 := by
    apply pyRoundR_eq
    · push_cast
      nlinarith [Real.pi_gt_d6]
    · push_cast
      nlinarith [Real.pi_lt_d6]
  rw [h1]
  norm_num

theorem c2_lattice_uw : c2latticeSec.unit_weight = 1912 / 1000 := by
  show to_kg_m (pipe_area (numToQ (42, 7, 1)) (numToQ (1, 9, 1)))
    = 1912 / 1000
  unfold to_kg_m pyRound3R
  have harg : (1000 : ℝ) *
      (pipe_area (numToQ (42, 7, 1)) (numToQ (1, 9, 1)) * (785 / 100000))
      = Real.pi * (608532 / 1000) := by
    unfold pipe_area numToQ
    push_cast
    ring
  rw [harg]
  have h1 : pyRoundR (Real.pi * (608532 / 1000)) = 1912 := by
    apply pyRoundR_eq
    · push_cast
      nlinarith [Real.pi_gt_d6]
    · push_cast
      nlinarith [Real.pi_lt_d6]
  rw [h1]
  norm_num

theorem c2_cos_eval : Real.cos (radians 45) = Real.sqrt 2 / 2 := by
  have h : radians 45 = Real.pi / 4 := by
    unfold radians
    push_cast
    ring
  rw [h, Real.cos_pi_div_four]

theorem c2_div_sqrt :
    (1912 / 1000 : ℝ) / (Real.sqrt 2 / 2) = 1912 / 1000 * Real.sqrt 2 := by
  have h2 : Real.sqrt 2 * Real.sqrt 2 = 2 := Real.mul_self_sqrt (by norm_num)
  have hs : Real.sqrt 2 ≠ 0 := by positivity
  have h2sq : Real.sqrt 2 ^ 2 = 2 := Real.sq_sqrt (by norm_num)
  field_simp
  linear_combination (-239000000 / 125 : ℝ) * h2sq

theorem c2_chord_w : pyRound3R ((2 : ℝ) * c2chordSec.unit_weight)
    = 4584 / 1000 := by
  rw [c2_chord_uw]
  unfold pyRound3R
  rw [show (1000 : ℝ) * (2 * (2292 / 1000)) = ((4584 : ℤ) : ℝ) by norm_num,
    pyRoundR_intCast]
  norm_num

theorem c2_lattice_w :
    pyRound3R (c2latticeSec.unit_weight / Real.cos (radians 45))
      = 2704 / 1000 := by
  rw [c2_lattice_uw, c2_cos_eval, c2_div_sqrt]
  unfold pyRound3R
  rw [show (1000 : ℝ) * (1912 / 1000 * Real.sqrt 2) = 1912 * Real.sqrt 2 by
    ring]
  have h1 : pyRoundR ((1912 : ℝ) * Real.sqrt 2) = 2704 := by
    apply pyRoundR_eq
    · push_cast
      nlinarith [sqrt2_gt]
    · push_cast
      nlinarith [sqrt2_lt]
  rw [h1]
  norm_num

theorem c2_total_w :
    pyRound3R ((2 : ℝ) * c2chordSec.unit_weight +
        c2latticeSec.unit_weight / Real.cos (radians 45))
      = 7288 / 1000 := by
  rw [c2_chord_uw, c2_lattice_uw, c2_cos_eval, c2_div_sqrt]
  unfold pyRound3R
  rw [show (1000 : ℝ) * (2 * (2292 / 1000) + 1912 / 1000 * Real.sqrt 2)
      = 4584 + 1912 * Real.sqrt 2 by ring]
  have h1 : pyRoundR ((4584 : ℝ) + 1912 * Real.sqrt 2) = 7288 := by
    apply pyRoundR_eq
    · push_cast
      nlinarith [sqrt2_gt]
    · push_cast
      nlinarith [sqrt2_lt]
  rw [h1]
  norm_num

/-- Full evaluation of the ①-row parse: a truss of two 42.7φ×2.3t chords
(4.584 kg/m) and a 42.7φ×1.9t lattice (2.704 kg/m), total 7.288 kg/m. -/
theorem c2_truss_eval :
    c2entry.truss = some (LatticeTrussSpec.mk c2chordSec 2 c2latticeSec 450
      45 (4584 / 1000) (2704 / 1000) (7288 / 1000)) := by
  have h0 : c2entry = parseLatticeEntry "①" "主架構材" c2row "STK400"
      "main_frame" ("2Ps-42.7φ×2.3t, D=450, ".toList)
      ("P-42.7φ×1.9t, θ=45°".toList) := by
    unfold c2entry parse_member_entry
    rw [c2_break_eval]
  rw [h0]
  simp only [parseLatticeEntry, c2_chords_eval, c2_lat_eval, c2_depth_val,
    c2_angle_val, latticePrimary, List.foldl]
  rw [if_pos (by norm_num : (450 : ℚ) > 0)]
  norm_num [c2_chord_w, c2_lattice_w, c2_total_w, List.map_cons,
    List.map_nil, List.sum_cons, List.sum_nil]

/-- C2 (corrected): the lattice-truss row parses to chord count 2, chord
weight 4.584 kg/m (within 0.01 of the claimed 4.582), lattice weight
2.704 kg/m and total 7.288 kg/m, where the chord weight is
round(Σ count·unit_weight, 3), the lattice weight is
round(unit_weight / cos θ, 3) and the total their (pre-rounding) sum; the
chord pipe weighs 2.292 kg/m and the lattice pipe 1.912 kg/m. -/
theorem C2_lattice_truss_row :
    c2entry.truss = some (LatticeTrussSpec.mk c2chordSec 2 c2latticeSec 450
      45 (4584 / 1000) (2704 / 1000) (7288 / 1000))
    ∧ c2chordSec.unit_weight = 2292 / 1000
    ∧ c2latticeSec.unit_weight = 1912 / 1000
    ∧ (4584 / 1000 : ℝ) = pyRound3R (2 * c2chordSec.unit_weight)
    ∧ (2704 / 1000 : ℝ)
        = pyRound3R (c2latticeSec.unit_weight / Real.cos (radians 45))
    ∧ (7288 / 1000 : ℝ) = pyRound3R (2 * c2chordSec.unit_weight +
        c2latticeSec.unit_weight / Real.cos (radians 45))
    ∧ |(4584 / 1000 : ℝ) - 4582 / 1000| ≤ 1 / 100
    ∧ c2entry.unit_weight = 7288 / 1000 := by
  refine ⟨c2_truss_eval, c2_chord_uw, c2_lattice_uw, (c2_chord_w).symm,
    (c2_lattice_w).symm, (c2_total_w).symm,
    by rw [abs_of_nonneg (by norm_num : (0:ℝ) ≤ 4584/1000 - 4582/1000)]; norm_num, ?_⟩
  have h0 : c2entry = parseLatticeEntry "①" "主架構材" c2row "STK400"
      "main_frame" ("2Ps-42.7φ×2.3t, D=450, ".toList)
      ("P-42.7φ×1.9t, θ=45°".toList) := by
    unfold c2entry parse_member_entry
    rw [c2_break_eval]
  rw [h0]
  simp only [parseLatticeEntry, c2_chords_eval, c2_lat_eval, c2_depth_val,
    c2_angle_val, latticePrimary, List.foldl]
  rw [if_pos (by norm_num : (450 : ℚ) > 0)]
  norm_num [c2_total_w, List.map_cons, List.map_nil, List.sum_cons,
    List.sum_nil]

/-- C2 counterexample: the computed lattice weight 2.704 and total 7.288
are NOT within ±0.01 of the claimed 2.690 and 7.27. -/
theorem C2_counterexample :
    c2entry.truss.map LatticeTrussSpec.lattice_weight_per_m
        = some (2704 / 1000)
    ∧ ¬(|(2704 / 1000 : ℝ) - 2690 / 1000| ≤ 1 / 100)
    ∧ c2entry.truss.map LatticeTrussSpec.total_weight_per_m
        = some (7288 / 1000)
    ∧ ¬(|(7288 / 1000 : ℝ) - 727 / 100| ≤ 1 / 100) := by
  refine ⟨?_,
    by rw [abs_of_nonneg (by norm_num : (0:ℝ) ≤ 2704/1000 - 2690/1000)]; norm_num, ?_,
    by rw [abs_of_nonneg (by norm_num : (0:ℝ) ≤ 7288/1000 - 727/100)]; norm_num⟩
  · rw [c2_truss_eval]
    rfl
  · rw [c2_truss_eval]
    rfl

end Warehouse
